import Mathlib

/-!
Verification of the Solo-levelling-IRL progression and task-resolution engine.

This file gives a shallow embedding of the server-side services
(`stat.service.ts`, `xp.service.ts`, `task.service.ts`, `penalty.service.ts`,
`ai/judge.ts`, `ai/validation.ts` and `jobs/dailyDecay.job.ts`) and proves the
documented invariants against that embedding.

Modelling conventions:
- Timestamps are milliseconds since the epoch, as `Int` (JS `Date.getTime()`).
- JS `number` values that flow through arithmetic are `Rat`; database integer
  columns are `Int`.  `Math.round` is Mathlib's `round` (both round halves up,
  towards positive infinity), `Math.floor` is `Int.floor`.
- A Sequelize `findOne`/`findByPk` is `List.find?` over the row list in
  insertion order; `update` replaces the row with the matching primary key;
  `create` appends a row whose id is the database's id counter.
- A throwing service is `Except String`; the thrown message mirrors the source.
- External effects (the OpenAI judge call, the quest generator, the narrator,
  `Math.random`) are inputs, supplied through an explicit environment.
-/

namespace SoloLeveling

/-- One day in milliseconds. -/
def dayMs : Int := 86400000

/-- Midnight (00:00:00.000) of the UTC day containing `t`
(JS `setHours(0,0,0,0)`). -/
def startOfDay (t : Int) : Int := t - t % dayMs

/-- End of the UTC day containing `t` (JS `setHours(23,59,59,999)`). -/
def endOfDay (t : Int) : Int := startOfDay t + dayMs - 1

/-- Player rank, `models/Player.ts`. -/
inductive Rank where
  | E | D | C | B | A | S | SS
deriving DecidableEq

/-- Task difficulty, `models/Task.ts`. -/
inductive Difficulty where
  | easy | medium | hard | extreme
deriving DecidableEq

/-- Task type, `models/Task.ts`. -/
inductive TaskType where
  | daily | weekly | dungeon | boss
deriving DecidableEq

/-- The six stat names, `models/Task.ts` (`StatType`). -/
inductive StatType where
  | physical | intelligence | discipline | charisma | confidence | creativity
deriving DecidableEq

/-- TaskLog status, `models/TaskLog.ts`. -/
inductive TaskStatus where
  | pending | completed | failed | missed
deriving DecidableEq

/-- Penalty reason, `models/Penalty.ts` (`ENUM('missed_task','rank_lock','xp_loss')`). -/
inductive PenaltyReason where
  | missed_task | rank_lock | xp_loss
deriving DecidableEq

/-- The string key of a stat, as it appears in JSON objects. -/
def statTypeName : StatType → String
  | .physical => "physical"
  | .intelligence => "intelligence"
  | .discipline => "discipline"
  | .charisma => "charisma"
  | .confidence => "confidence"
  | .creativity => "creativity"

/-- A row of the `players` table. -/
structure Player where
  id : Nat
  rank : Rank
  level : Nat
  totalXp : Int
deriving DecidableEq

/-- A row of the `stats` table: six integer columns clamped to 0..100. -/
structure StatsRow where
  id : Nat
  playerId : Nat
  physical : Int
  intelligence : Int
  discipline : Int
  charisma : Int
  confidence : Int
  creativity : Int
deriving DecidableEq

/-- A row of the `tasks` table. -/
structure TaskRow where
  id : Nat
  type : TaskType
  difficulty : Difficulty
  description : String
  targetStat : StatType
  xpReward : Int
  deadline : Int
deriving DecidableEq

/-- A row of the `task_logs` table. -/
structure TaskLogRow where
  id : Nat
  taskId : Nat
  playerId : Nat
  status : TaskStatus
  evidence : Option String
  aiVerdict : Option String
  createdAt : Int
deriving DecidableEq

/-- A row of the `penalties` table; `expiresAt` is nullable. -/
structure PenaltyRow where
  id : Nat
  playerId : Nat
  reason : PenaltyReason
  severity : Rat
  expiresAt : Option Int
  createdAt : Int
deriving DecidableEq

/-- A row of the `narratives` table. -/
structure NarrativeRow where
  id : Nat
  taskLogId : Nat
  narrative : String
deriving DecidableEq

/-- The database: one list per table plus the id counter used by `create`. -/
structure DB where
  players : List Player
  stats : List StatsRow
  tasks : List TaskRow
  taskLogs : List TaskLogRow
  penalties : List PenaltyRow
  narratives : List NarrativeRow
  nextId : Nat
deriving DecidableEq

/-- Relative stat deltas (`StatChanges` in `stat.service.ts`); every field is
optional, matching the TS interface. -/
structure StatChanges where
  physical : Option Rat := none
  intelligence : Option Rat := none
  discipline : Option Rat := none
  charisma : Option Rat := none
  confidence : Option Rat := none
  creativity : Option Rat := none
deriving DecidableEq

/-- Daily decay rates per stat (`DAILY_DECAY_RATES` in `stat.service.ts`). -/
def DAILY_DECAY_RATES : StatType → Rat
  | .discipline => -(2/10)
  | .physical => -(1/10)
  | .intelligence => -(5/100)
  | .confidence => -(1/10)
  | .charisma => -(5/100)
  | .creativity => -(5/100)

/-- Clamps a stat value between 0 and 100, rounding to the nearest integer
(`clampStat` in `stat.service.ts`:
`Math.max(0, Math.min(100, Math.round(value)))`). -/
def clampStat (value : Rat) : Int :=
  max 0 (min 100 (round value))

/-- Finds the stats row of a player (`StatsModel.findOne({ where: { playerId } })`). -/
def findStats (db : DB) (playerId : Nat) : Option StatsRow :=
  db.stats.find? (fun s => s.playerId == playerId)

/-- Finds a player by primary key (`PlayerModel.findByPk`). -/
def findPlayer (db : DB) (playerId : Nat) : Option Player :=
  db.players.find? (fun p => p.id == playerId)

/-- Finds a task by primary key (`TaskModel.findByPk`). -/
def findTask (db : DB) (taskId : Nat) : Option TaskRow :=
  db.tasks.find? (fun t => t.id == taskId)

/-- Replaces the stats row with the same id (`stats.update(...)`). -/
def updateStatsRow (db : DB) (s : StatsRow) : DB :=
  { db with stats := db.stats.map (fun r => if r.id == s.id then s else r) }

/-- Replaces the player row with the same id (`player.update(...)`). -/
def updatePlayerRow (db : DB) (p : Player) : DB :=
  { db with players := db.players.map (fun r => if r.id == p.id then p else r) }

/-- Checks whether the player completed a task of type `daily` during the
current calendar day (`hasCompletedDailyQuestToday` in `stat.service.ts`). -/
def hasCompletedDailyQuestToday (db : DB) (playerId : Nat) (now : Int) : Bool :=
  db.taskLogs.any (fun l =>
    l.playerId == playerId &&
    decide (l.status = TaskStatus.completed) &&
    decide (startOfDay now ≤ l.createdAt) &&
    decide (l.createdAt ≤ endOfDay now) &&
    (match findTask db l.taskId with
     | some t => decide (t.type = TaskType.daily)
     | none => false))

/-- Applies relative stat deltas to a player's stats, clamping every value to
0..100 (`applyStatChange` in `stat.service.ts`).  Missing deltas default to 0
(`changes.x || 0`). -/
def applyStatChange (db : DB) (playerId : Nat) (changes : StatChanges) :
    Except String (StatsRow × DB) :=
  match findStats db playerId with
  | none => .error ("Stats not found for player " ++ toString playerId)
  | some stats =>
    let updated : StatsRow := { stats with
      physical := clampStat ((stats.physical : Rat) + (changes.physical.getD 0))
      intelligence := clampStat ((stats.intelligence : Rat) + (changes.intelligence.getD 0))
      discipline := clampStat ((stats.discipline : Rat) + (changes.discipline.getD 0))
      charisma := clampStat ((stats.charisma : Rat) + (changes.charisma.getD 0))
      confidence := clampStat ((stats.confidence : Rat) + (changes.confidence.getD 0))
      creativity := clampStat ((stats.creativity : Rat) + (changes.creativity.getD 0)) }
    .ok (updated, updateStatsRow db updated)

/-- Applies the fixed daily decay rates, unless the player completed a daily
quest today, in which case `null` is returned (`applyDailyDecay` in
`stat.service.ts`). -/
def applyDailyDecay (db : DB) (playerId : Nat) (now : Int) :
    Except String (Option StatsRow × DB) :=
  if hasCompletedDailyQuestToday db playerId now then
    .ok (none, db)
  else
    match findStats db playerId with
    | none => .error ("Stats not found for player " ++ toString playerId)
    | some _ =>
      match applyStatChange db playerId
        { discipline := some (DAILY_DECAY_RATES .discipline)
          physical := some (DAILY_DECAY_RATES .physical)
          intelligence := some (DAILY_DECAY_RATES .intelligence)
          confidence := some (DAILY_DECAY_RATES .confidence)
          charisma := some (DAILY_DECAY_RATES .charisma)
          creativity := some (DAILY_DECAY_RATES .creativity) } with
      | .error e => .error e
      | .ok (s, db1) => .ok (some s, db1)

/-- XP required to reach a level: the exact value of
`Math.round(100 * Math.pow(level, 1.5))` from `calculateXpRequired` in
`xp.service.ts`, computed in exact arithmetic.  Since
`100·l^1.5 = √(40000·l³)/2` and the argument is never a half-integer,
rounding half up gives `(⌊√(40000·l³)⌋ + 1) / 2`. -/
def xpRequiredFn (level : Nat) : Nat :=
  (Nat.sqrt (40000 * level ^ 3) + 1) / 2

/-- XP required for a given level (`calculateXpRequired` in `xp.service.ts`);
throws when `level < 1`. -/
def calculateXpRequired (level : Int) : Except String Nat :=
  if level < 1 then .error "Level must be >= 1"
  else .ok (xpRequiredFn level.toNat)

/-- The while-loop of `calculateLevel`, with explicit fuel.  The source loop
increments `level` while `totalXp >= calculateXpRequired(level + 1)`; since the
starting level is 1, the `level < 1` guard of `calculateXpRequired` never
fires inside the loop. -/
def calculateLevelAux (totalXp : Int) : Nat → Nat → Nat
  | 0, level => level
  | fuel + 1, level =>
    if totalXp < (xpRequiredFn (level + 1) : Int) then level
    else calculateLevelAux totalXp fuel (level + 1)

/-- Current level from total XP (`calculateLevel` in `xp.service.ts`).  The
fuel `totalXp.toNat + 1` is enough: each iteration needs
`xpRequired(level+1) ≤ totalXp` and `xpRequired` grows at least linearly, so
the loop stops before the fuel runs out (proved in `calculateLevelAux_stops`). -/
def calculateLevel (totalXp : Int) : Nat :=
  calculateLevelAux totalXp (totalXp.toNat + 1) 1

/-- Rank from lifetime XP (`calculateRank` in `xp.service.ts`): negative XP is
`E`; otherwise the first matching `RANK_XP_THRESHOLDS` interval in insertion
order `E, D, C, B, A, S, SS` wins; if nothing matched the source throws. -/
def calculateRank (totalXp : Int) : Except String Rank :=
  if totalXp < 0 then .ok .E
  else if 0 ≤ totalXp ∧ totalXp ≤ 999 then .ok .E
  else if 1000 ≤ totalXp ∧ totalXp ≤ 4999 then .ok .D
  else if 5000 ≤ totalXp ∧ totalXp ≤ 14999 then .ok .C
  else if 15000 ≤ totalXp ∧ totalXp ≤ 39999 then .ok .B
  else if 40000 ≤ totalXp ∧ totalXp ≤ 99999 then .ok .A
  else if 100000 ≤ totalXp ∧ totalXp ≤ 249999 then .ok .S
  else if 250000 ≤ totalXp then .ok .SS
  else .error ("Invalid XP amount: " ++ toString totalXp)

/-- Recomputes a player's level and rank from the current `totalXp` and
persists both in one update (`recalculateLevelAndRank` in `xp.service.ts`). -/
def recalculateLevelAndRank (db : DB) (player : Player) :
    Except String (Player × DB) :=
  let newLevel := calculateLevel player.totalXp
  match calculateRank player.totalXp with
  | .error e => .error e
  | .ok newRank =>
    let updated : Player := { player with level := newLevel, rank := newRank }
    .ok (updated, updatePlayerRow db updated)

/-- Adds XP (positive or negative) to a player and recalculates level and rank
(`addXp` in `xp.service.ts`); `amount = 0` returns the player unchanged. -/
def addXp (db : DB) (playerId : Nat) (xpAmount : Int) :
    Except String (Player × DB) :=
  if xpAmount = 0 then
    match findPlayer db playerId with
    | none => .error ("Player not found: " ++ toString playerId)
    | some player => .ok (player, db)
  else
    match findPlayer db playerId with
    | none => .error ("Player not found: " ++ toString playerId)
    | some player =>
      let p1 : Player := { player with totalXp := player.totalXp + xpAmount }
      recalculateLevelAndRank (updatePlayerRow db p1) p1

/-- Difficulty multipliers for PSI (`DIFFICULTY_MULTIPLIERS` in
`penalty.service.ts`). -/
def DIFFICULTY_MULTIPLIERS : Difficulty → Rat
  | .easy => 1
  | .medium => 2
  | .hard => 3
  | .extreme => 4

/-- Appends a new penalty row, drawing its id from the id counter
(`PenaltyModel.create`). -/
def createPenalty (db : DB) (playerId : Nat) (reason : PenaltyReason)
    (severity : Rat) (expiresAt : Option Int) (now : Int) : DB :=
  { db with
    penalties := db.penalties ++
      [{ id := db.nextId, playerId := playerId, reason := reason,
         severity := severity, expiresAt := expiresAt, createdAt := now }]
    nextId := db.nextId + 1 }

/-- Missed task logs of the trailing 7 days, inner-joined with their task
(the `findAll` inside `calculatePSI`). -/
def recentMissedTaskLogs (db : DB) (playerId : Nat) (now : Int) : List TaskLogRow :=
  db.taskLogs.filter (fun l =>
    l.playerId == playerId &&
    decide (l.status = TaskStatus.missed) &&
    decide (now - 7 * dayMs ≤ l.createdAt) &&
    (findTask db l.taskId).isSome)

/-- Penalty Severity Index (`calculatePSI` in `penalty.service.ts`): sum of the
difficulty multipliers of the recent missed tasks, times
`min(count·0.1 + 1, 2.0)`, floored. -/
def calculatePSI (db : DB) (playerId : Nat) (now : Int) : Int :=
  let recent := recentMissedTaskLogs db playerId now
  if recent.length = 0 then 0
  else
    let base : Rat := (recent.map (fun l =>
      match findTask db l.taskId with
      | some t => DIFFICULTY_MULTIPLIERS t.difficulty
      | none => 0)).sum
    let streakFactor : Rat := min ((recent.length : Rat) * (1/10) + 1) 2
    ⌊base * streakFactor⌋

/-- Applies the penalty ladder for a PSI value (`applyPenalty` in
`penalty.service.ts`), returning the penalty kind string. -/
def applyPenalty (db : DB) (playerId : Nat) (psi : Rat) (now : Int) :
    Except String (String × DB) :=
  if psi < 5 then
    .ok ("warning", createPenalty db playerId .missed_task psi none now)
  else if 5 ≤ psi ∧ psi < 10 then
    match applyStatChange db playerId
      { discipline := some (-1), confidence := some (-(1/2)) } with
    | .error e => .error e
    | .ok (_, db1) =>
      .ok ("stat_decay", createPenalty db1 playerId .missed_task psi none now)
  else if 10 ≤ psi ∧ psi < 20 then
    match addXp db playerId (-(round (psi * 2))) with
    | .error e => .error e
    | .ok (_, db1) =>
      .ok ("xp_loss",
        createPenalty db1 playerId .xp_loss psi (some (now + dayMs)) now)
  else if 20 ≤ psi then
    let lockDays : Int := min ⌊psi / 5⌋ 30
    .ok ("rank_lock",
      createPenalty db playerId .rank_lock psi (some (now + lockDays * dayMs)) now)
  else
    .ok ("none", db)

/-- Computes the PSI and applies the ladder unless the PSI is 0
(`applyMissPenalty` in `penalty.service.ts`). -/
def applyMissPenalty (db : DB) (playerId : Nat) (now : Int) :
    Except String ((Int × String) × DB) :=
  let psi := calculatePSI db playerId now
  if psi = 0 then .ok ((psi, "none"), db)
  else
    match applyPenalty db playerId (psi : Rat) now with
    | .error e => .error e
    | .ok (penalty, db1) => .ok ((psi, penalty), db1)

/-- True when an unexpired `rank_lock` penalty exists (`isRankLocked` in
`penalty.service.ts`); a null `expiresAt` never satisfies `Op.gt`. -/
def isRankLocked (db : DB) (playerId : Nat) (now : Int) : Bool :=
  db.penalties.any (fun p =>
    p.playerId == playerId &&
    decide (p.reason = PenaltyReason.rank_lock) &&
    (match p.expiresAt with
     | some t => decide (now < t)
     | none => false))

/-- Active penalties: null `expiresAt` (permanent) or not yet expired
(`getActivePenalties` in `penalty.service.ts`). -/
def getActivePenalties (db : DB) (playerId : Nat) (now : Int) : List PenaltyRow :=
  db.penalties.filter (fun p =>
    p.playerId == playerId &&
    (match p.expiresAt with
     | none => true
     | some t => decide (now < t)))

/-- Deletes penalties whose `expiresAt` lies in the past, returning the count
removed (`cleanupExpiredPenalties` in `penalty.service.ts`); rows with a null
`expiresAt` never match `Op.lt`. -/
def cleanupExpiredPenalties (db : DB) (now : Int) : Nat × DB :=
  let expired := db.penalties.filter (fun p =>
    match p.expiresAt with
    | some t => decide (t < now)
    | none => false)
  (expired.length,
   { db with penalties := db.penalties.filter (fun p =>
       match p.expiresAt with
       | some t => decide (now ≤ t)
       | none => true) })

/-- A parsed JSON value, the `unknown` input of `validateJudgeResponse`. -/
inductive Json where
  | null
  | bool (b : Bool)
  | num (q : Rat)
  | str (s : String)
  | arr (elems : List Json)
  | obj (fields : List (String × Json))

/-- JS falsiness of a JSON value (`!data`). -/
def jsFalsy : Json → Bool
  | .null => true
  | .bool b => !b
  | .num q => q == 0
  | .str s => s == ""
  | .arr _ => false
  | .obj _ => false

/-- JS `typeof data === "object"` for a JSON value (true for null, arrays and
objects). -/
def jsTypeofObject : Json → Bool
  | .null => true
  | .arr _ => true
  | .obj _ => true
  | _ => false

/-- Field lookup on a JSON object (`"key" in response` / `response.key`). -/
def getField (fields : List (String × Json)) (key : String) : Option Json :=
  (fields.find? (fun f => f.1 == key)).map (fun f => f.2)

/-- Judge verdict. -/
inductive Verdict where
  | success | fail
deriving DecidableEq

/-- The validated judge response (`JudgeResponse` in `ai/validation.ts`).
The `statChanges` record is kept as its list of key/value entries. -/
structure JudgeResponse where
  verdict : Verdict
  xp : Int
  statChanges : List (String × Rat)
  comment : String
deriving DecidableEq

/-- The six accepted stat names (`VALID_STAT_NAMES` in `ai/validation.ts`). -/
def VALID_STAT_NAMES : List String :=
  ["physical", "intelligence", "discipline", "charisma", "confidence", "creativity"]

/-- Per-entry check of `statChanges` on a success verdict: every key must be a
known stat name and every value an integer. -/
def validateStatEntries : List (String × Json) → Except String Unit
  | [] => .ok ()
  | (k, v) :: rest =>
    if VALID_STAT_NAMES.contains k then
      match v with
      | .num q =>
        if q.den = 1 then validateStatEntries rest
        else .error ("Stat change for " ++ k ++ " must be an integer")
      | _ => .error ("Stat change for " ++ k ++ " must be an integer")
    else .error ("Invalid stat name: " ++ k)

/-- Numeric value of a JSON entry (used after validation has ensured the entry
is a number). -/
def jsonNumValue : Json → Rat
  | .num q => q
  | _ => 0

/-- Final stage of validation: the `comment` field must exist and be a string
(`ai/validation.ts` checks only `typeof response.comment !== "string"`). -/
def validateComment (fields : List (String × Json)) (verdict : Verdict)
    (xp : Int) (statChanges : List (String × Rat)) : Except String JudgeResponse :=
  match getField fields "comment" with
  | none => .error "Judge response must include \"comment\" field"
  | some (.str s) => .ok ⟨verdict, xp, statChanges, s⟩
  | some _ => .error "Comment must be a string"

/-- Verdict-dependent checks followed by the comment check, given the already
validated `verdict`, `xp` and raw `statChanges` entries. -/
def validateVerdictRules (fields : List (String × Json)) (verdict : Verdict)
    (xp : Int) (entries : List (String × Json)) : Except String JudgeResponse :=
  match verdict with
  | .fail =>
    if xp ≠ 0 then .error "If verdict is \"fail\", xp must be 0"
    else if entries.length > 0 then .error "If verdict is \"fail\", statChanges must be empty"
    else validateComment fields .fail xp (entries.map (fun e => (e.1, jsonNumValue e.2)))
  | .success =>
    if xp = 0 then .error "If verdict is \"success\", xp must be greater than 0"
    else
      match validateStatEntries entries with
      | .error e => .error e
      | .ok _ => validateComment fields .success xp (entries.map (fun e => (e.1, jsonNumValue e.2)))

/-- Validation stages following the verdict check: xp must be a non-negative
integer number, statChanges a plain object (not null, not an array), then the
verdict-dependent rules and the comment check run. -/
def validateAfterVerdict (fields : List (String × Json)) (verdict : Verdict) :
    Except String JudgeResponse :=
  match getField fields "xp" with
  | none => .error "Judge response must include \"xp\" field"
  | some (.num q) =>
    if 0 ≤ q ∧ q.den = 1 then
      match getField fields "statChanges" with
      | none => .error "Judge response must include \"statChanges\" field"
      | some (.obj entries) => validateVerdictRules fields verdict q.num entries
      | some _ => .error "statChanges must be an object"
    else .error "XP must be a non-negative integer"
  | some _ => .error "XP must be a non-negative integer"

/-- Field-by-field validation of a judge response object, in source order:
verdict, xp, statChanges, verdict-dependent rules, comment. -/
def validateFields (fields : List (String × Json)) : Except String JudgeResponse :=
  match getField fields "verdict" with
  | none => .error "Judge response must include \"verdict\" field"
  | some (.str "success") => validateAfterVerdict fields .success
  | some (.str "fail") => validateAfterVerdict fields .fail
  | some _ => .error "Verdict must be \"success\" or \"fail\""

/-- Validates the oracle's JSON response (`validateJudgeResponse` in
`ai/validation.ts`); any rule violation throws. -/
def validateJudgeResponse (data : Json) : Except String JudgeResponse :=
  if jsFalsy data || !(jsTypeofObject data) then
    .error "Judge response must be an object"
  else
    match data with
    | .obj fields => validateFields fields
    | _ => .error "Judge response must include \"verdict\" field"

/-- Outcome of the oracle call seen by `judgeTask`: the API call may throw, the
completion may carry no content, `JSON.parse` may throw, or a JSON value is
produced. -/
inductive OracleOutcome where
  | transportError (msg : String)
  | noContent
  | parseFailure (msg : String)
  | content (j : Json)

/-- Default XP mapping used by the fallback (`DEFAULT_XP_BY_DIFFICULTY` in
`ai/judge.ts`). -/
def DEFAULT_XP_BY_DIFFICULTY : Difficulty → Int
  | .easy => 20
  | .medium => 50
  | .hard => 100
  | .extreme => 200

/-- Deterministic fallback when the AI fails (`getDeterministicFallback` in
`ai/judge.ts`). -/
def getDeterministicFallback (task : TaskRow) : JudgeResponse :=
  { verdict := .success
    xp := DEFAULT_XP_BY_DIFFICULTY task.difficulty
    statChanges := [(statTypeName task.targetStat, 1)]
    comment := "Task evaluated using system fallback." }

/-- Judges a task completion (`judgeTask` in `ai/judge.ts`): the player stats
and evidence only feed the prompt; every failure of the oracle path — transport
error, missing content, parse failure or validation failure — is caught and
replaced by the deterministic fallback. -/
def judgeTask (task : TaskRow) (_playerStats : StatsRow) (_evidence : String)
    (oracle : OracleOutcome) : JudgeResponse :=
  match oracle with
  | .content j =>
    match validateJudgeResponse j with
    | .ok r => r
    | .error _ => getDeterministicFallback task
  | _ => getDeterministicFallback task

/-- JS falsiness of an optional string column (`!taskLog.evidence`): null,
undefined and the empty string are falsy. -/
def jsFalsyStr : Option String → Bool
  | none => true
  | some s => s == ""

/-- Replaces the task log row with the same id (`taskLog.update(...)`). -/
def updateTaskLogRow (db : DB) (l : TaskLogRow) : DB :=
  { db with taskLogs := db.taskLogs.map (fun r => if r.id == l.id then l else r) }

/-- XP range of a daily task template (`TASK_TEMPLATES.daily[...].xpRange` in
`task.service.ts`). -/
def taskTemplateXpRange : Difficulty → Int × Int
  | .easy => (20, 30)
  | .medium => (31, 35)
  | .hard => (36, 40)
  | .extreme => (50, 60)

/-- Daily quest description pools (`DAILY_QUEST_DESCRIPTIONS` in
`task.service.ts`). -/
def DAILY_QUEST_DESCRIPTIONS : StatType → List String
  | .physical =>
    ["Complete a 30-minute workout or exercise routine",
     "Take a 45-minute walk or run",
     "Do 50 push-ups or bodyweight exercises"]
  | .intelligence =>
    ["Read for 45 minutes on a challenging topic",
     "Learn something new - tutorial, course, or book chapter",
     "Solve 5-10 logic puzzles or brain teasers"]
  | .discipline =>
    ["Maintain a consistent routine for 2 hours",
     "Complete all planned tasks for the day",
     "Follow through on a commitment you made"]
  | .charisma =>
    ["Have a meaningful conversation with someone new",
     "Practice public speaking or presentation skills",
     "Help someone with a problem or give advice"]
  | .confidence =>
    ["Try something outside your comfort zone",
     "Speak up in a meeting or group setting",
     "Take initiative on a task without being asked"]
  | .creativity =>
    ["Create something new - art, music, writing, or code",
     "Brainstorm solutions to a problem creatively",
     "Learn a new creative skill or technique"]

/-- Picks a description for a stat (`getRandomDescription`); `randIndex` stands
for the value of `Math.floor(Math.random() * descriptions.length)`. -/
def getRandomDescription (randIndex : Nat) (statType : StatType) : String :=
  let descriptions := DAILY_QUEST_DESCRIPTIONS statType
  descriptions.getD (randIndex % descriptions.length) ""

/-- XP reward from a base XP and difficulty multiplier (`calculateXpReward` in
`task.service.ts`). -/
def calculateXpReward (difficulty : Difficulty) (baseXp : Int) : Int :=
  let multiplier : Rat :=
    match difficulty with
    | .easy => 1
    | .medium => 3/2
    | .hard => 5/2
    | .extreme => 4
  round ((baseXp : Rat) * multiplier)

/-- Finds the stat with the strictly lowest value, ties broken by the fixed
enumeration order physical, intelligence, discipline, charisma, confidence,
creativity (`getWeakestStat` in `task.service.ts`). -/
def getWeakestStat (db : DB) (playerId : Nat) : Except String StatType :=
  match findStats db playerId with
  | none => .error ("Stats not found for player " ++ toString playerId)
  | some s =>
    let pairs : List (StatType × Int) :=
      [(.physical, s.physical), (.intelligence, s.intelligence),
       (.discipline, s.discipline), (.charisma, s.charisma),
       (.confidence, s.confidence), (.creativity, s.creativity)]
    .ok (pairs.foldl
      (fun acc p => if p.2 < acc.2 then p else acc)
      (.physical, s.physical)).1

/-- Task logs of the trailing `days` days inner-joined with their task
(`getRecentTaskHistory` in `task.service.ts`). -/
def getRecentTaskHistory (db : DB) (playerId : Nat) (now : Int) (days : Int) :
    List TaskLogRow :=
  db.taskLogs.filter (fun l =>
    l.playerId == playerId &&
    decide (now - days * dayMs ≤ l.createdAt) &&
    (findTask db l.taskId).isSome)

/-- Counts failed or missed logs (`countRecentFailures` in `task.service.ts`). -/
def countRecentFailures (taskLogs : List TaskLogRow) : Nat :=
  (taskLogs.filter (fun l =>
    decide (l.status = TaskStatus.failed) || decide (l.status = TaskStatus.missed))).length

/-- Difficulty scaling from recent failures and rank
(`calculateDifficultyScaling` in `task.service.ts`). -/
def calculateDifficultyScaling (recentFailures : Nat) (rank : Rank) : Difficulty :=
  if recentFailures = 0 then
    if rank = .E ∨ rank = .D then .easy
    else if rank = .C ∨ rank = .B then .medium
    else if rank = .A ∨ rank = .S then .hard
    else .extreme
  else if recentFailures ≤ 2 then
    if rank = .E ∨ rank = .D then .easy else .medium
  else if recentFailures ≤ 5 then .easy
  else .easy

/-- A quest suggestion from the external generator (`ai/quest-generator.ts`
response shape). -/
structure QuestSuggestion where
  type : TaskType
  description : String
  difficulty : Difficulty
  targetStat : StatType

/-- Environment of external effects: the judge oracle outcome, the quest
generator outcome, the narrator outcome, and the two `Math.random` draws of
`generateDailyTask` (description index and base-XP offset). -/
structure Env where
  judgeOracle : OracleOutcome
  quest : Except String QuestSuggestion
  narrator : Except String String
  randDesc : Nat
  randBase : Nat

/-- Generates the daily task for a player (`generateDailyTask` in
`task.service.ts`): weakest-stat targeting is mandatory, difficulty comes from
the scaling policy, the AI suggestion is used when available (with a
deterministic fallback description), and a task plus an initial pending task
log are created with deadline end-of-today. -/
def generateDailyTask (env : Env) (now : Int) (db : DB) (playerId : Nat) :
    Except String (TaskRow × DB) :=
  match getWeakestStat db playerId with
  | .error e => .error e
  | .ok weakestStat =>
    match findPlayer db playerId with
    | none => .error ("Player not found: " ++ toString playerId)
    | some player =>
      match findStats db playerId with
      | none => .error ("Stats not found for player " ++ toString playerId)
      | some _playerStats =>
        let recentTaskLogs := getRecentTaskHistory db playerId now 21
        let recentFailures := countRecentFailures recentTaskLogs
        let desiredDifficulty := calculateDifficultyScaling recentFailures player.rank
        let questSuggestion : QuestSuggestion :=
          match env.quest with
          | .ok q => q
          | .error _ =>
            { type := .daily
              description := getRandomDescription env.randDesc weakestStat
              difficulty := desiredDifficulty
              targetStat := weakestStat }
        -- weakness targeting is mandatory: both branches of the source ternary
        -- resolve to the computed weakest stat
        let finalTargetStat := weakestStat
        let finalDifficulty := questSuggestion.difficulty
        let range := taskTemplateXpRange finalDifficulty
        -- `Math.floor(Math.random() * (hi - lo + 1)) + lo`: the random draw is
        -- an offset below the range width
        let baseXp : Int := range.1 + (env.randBase % (range.2 - range.1 + 1).toNat : Nat)
        let xpReward := calculateXpReward finalDifficulty baseXp
        let deadline := endOfDay now
        let task : TaskRow :=
          { id := db.nextId, type := questSuggestion.type,
            difficulty := finalDifficulty, description := questSuggestion.description,
            targetStat := finalTargetStat, xpReward := xpReward, deadline := deadline }
        let db1 : DB := { db with tasks := db.tasks ++ [task], nextId := db.nextId + 1 }
        let taskLog : TaskLogRow :=
          { id := db1.nextId, taskId := task.id, playerId := playerId,
            status := .pending, evidence := none, aiVerdict := none, createdAt := now }
        let db2 : DB :=
          { db1 with taskLogs := db1.taskLogs ++ [taskLog], nextId := db1.nextId + 1 }
        .ok (task, db2)

/-- Submits evidence for a task (`submitTask` in `task.service.ts`): task must
exist and the deadline must not have passed; an existing pending log for the
(task, player) pair is returned idempotently, receiving the evidence only when
it has none stored; otherwise a new pending log is created. -/
def submitTask (db : DB) (taskId : Nat) (playerId : Nat) (evidence : String)
    (now : Int) : Except String (TaskLogRow × DB) :=
  match findTask db taskId with
  | none => .error ("Task not found: " ++ toString taskId)
  | some task =>
    if task.deadline < now then .error "Task deadline has passed"
    else
      match db.taskLogs.find? (fun l =>
          l.taskId == taskId && l.playerId == playerId &&
          decide (l.status = TaskStatus.pending)) with
      | some existingTaskLog =>
        if jsFalsyStr existingTaskLog.evidence then
          let updated := { existingTaskLog with evidence := some evidence }
          .ok (updated, updateTaskLogRow db updated)
        else .ok (existingTaskLog, db)
      | none =>
        let taskLog : TaskLogRow :=
          { id := db.nextId, taskId := taskId, playerId := playerId,
            status := .pending, evidence := some evidence, aiVerdict := none,
            createdAt := now }
        .ok (taskLog,
          { db with taskLogs := db.taskLogs ++ [taskLog], nextId := db.nextId + 1 })

/-- The AI result shape consumed by `resolveTask` (`TaskResolution` in
`task.service.ts`). -/
structure TaskResolution where
  success : Bool
  xpAwarded : Int
  statChanges : List (String × Rat)
  feedback : Option String

/-- Converts a judge response to a resolution
(`convertJudgeResponseToResolution` in `task.service.ts`). -/
def convertJudgeResponseToResolution (judgeResponse : JudgeResponse) : TaskResolution :=
  { success := judgeResponse.verdict = .success
    xpAwarded := judgeResponse.xp
    statChanges := judgeResponse.statChanges
    feedback := some judgeResponse.comment }

/-- Reads the six known stat keys out of a string-keyed record
(the `statChanges as Partial<Record<StatType, number>>` cast consumed by
`applyStatChange`). -/
def statChangesOfList (l : List (String × Rat)) : StatChanges :=
  { physical := ((l.find? (fun e => e.1 == "physical")).map (fun e => e.2))
    intelligence := ((l.find? (fun e => e.1 == "intelligence")).map (fun e => e.2))
    discipline := ((l.find? (fun e => e.1 == "discipline")).map (fun e => e.2))
    charisma := ((l.find? (fun e => e.1 == "charisma")).map (fun e => e.2))
    confidence := ((l.find? (fun e => e.1 == "confidence")).map (fun e => e.2))
    creativity := ((l.find? (fun e => e.1 == "creativity")).map (fun e => e.2)) }

/-- Resolves a task log from a resolution (`resolveTask` in `task.service.ts`):
sets the terminal status and verdict comment, stores the optional narrative,
and on success only applies XP then non-empty stat changes via the services. -/
def resolveTask (db : DB) (taskLog : TaskLogRow) (resolution : TaskResolution)
    (narrative : Option String) : Except String (TaskLogRow × DB) :=
  let newStatus : TaskStatus := if resolution.success then .completed else .failed
  -- `feedback || default`: an absent or empty feedback falls back to the fixed phrase
  let defaultVerdict :=
    if resolution.success then "Task completed successfully" else "Task requirements not met"
  let verdictText :=
    match resolution.feedback with
    | some s => if s = "" then defaultVerdict else s
    | none => defaultVerdict
  let updated := { taskLog with status := newStatus, aiVerdict := some verdictText }
  let db1 := updateTaskLogRow db updated
  let db2 :=
    match narrative with
    | some s =>
      if s = "" then db1
      else { db1 with
        narratives := db1.narratives ++
          [{ id := db1.nextId, taskLogId := updated.id, narrative := s }]
        nextId := db1.nextId + 1 }
    | none => db1
  if resolution.success then
    match addXp db2 taskLog.playerId resolution.xpAwarded with
    | .error e => .error e
    | .ok (_, db3) =>
      if resolution.statChanges.length > 0 then
        match applyStatChange db3 taskLog.playerId (statChangesOfList resolution.statChanges) with
        | .error e => .error e
        | .ok (_, db4) => .ok (updated, db4)
      else .ok (updated, db3)
  else .ok (updated, db2)

/-- Judges a pending, evidenced task log and resolves it (`judgeAndResolveTask`
in `task.service.ts`).  The `findByPk` with a required task include returns
null when the task row is gone, so both lookups share the not-found error. -/
def judgeAndResolveTask (env : Env) (db : DB) (taskLogId : Nat) :
    Except String (TaskLogRow × DB) :=
  match db.taskLogs.find? (fun l => l.id == taskLogId) with
  | none => .error ("TaskLog not found: " ++ toString taskLogId)
  | some taskLog =>
    match findTask db taskLog.taskId with
    | none => .error ("TaskLog not found: " ++ toString taskLogId)
    | some task =>
      if taskLog.status ≠ .pending then
        .error ("TaskLog " ++ toString taskLogId ++ " is not pending")
      else if jsFalsyStr taskLog.evidence then
        .error ("TaskLog " ++ toString taskLogId ++ " has no evidence to judge")
      else
        match findStats db taskLog.playerId with
        | none => .error ("Stats not found for player " ++ toString taskLog.playerId)
        | some playerStats =>
          let judgeResponse :=
            judgeTask task playerStats (taskLog.evidence.getD "") env.judgeOracle
          let resolution := convertJudgeResponseToResolution judgeResponse
          -- the narrator is optional: its failure is caught and skipped
          let narrativeText : Option String :=
            match env.narrator with
            | .ok s => some s
            | .error _ => none
          resolveTask db taskLog resolution narrativeText

/-- Marks every pending log whose task deadline has passed as missed
(`checkAndMarkMissedTasks` in `task.service.ts`), returning the refreshed rows. -/
def checkAndMarkMissedTasks (db : DB) (playerId : Nat) (now : Int) :
    List TaskLogRow × DB :=
  let missedTaskLogs := db.taskLogs.filter (fun l =>
    l.playerId == playerId &&
    decide (l.status = TaskStatus.pending) &&
    (match findTask db l.taskId with
     | some t => decide (t.deadline < now)
     | none => false))
  if missedTaskLogs.length = 0 then ([], db)
  else
    let taskLogIds := missedTaskLogs.map (fun l => l.id)
    let db1 : DB := { db with taskLogs := db.taskLogs.map (fun l =>
      if taskLogIds.contains l.id then { l with status := .missed } else l) }
    (db1.taskLogs.filter (fun l => taskLogIds.contains l.id), db1)

/-- Pending logs whose task deadline falls within the next hour
(`findPendingTasksNearDeadline` in `jobs/dailyDecay.job.ts`). -/
def findPendingTasksNearDeadline (db : DB) (playerId : Nat) (now : Int) :
    List TaskLogRow :=
  db.taskLogs.filter (fun l =>
    l.playerId == playerId &&
    decide (l.status = TaskStatus.pending) &&
    (match findTask db l.taskId with
     | some t => decide (now ≤ t.deadline) && decide (t.deadline ≤ now + 3600000)
     | none => false))

/-- One player's daily pipeline (`processPlayerDailyFlow` in
`jobs/dailyDecay.job.ts`).  The source opens a Sequelize transaction but passes
it to none of the five mutating steps — only to the `Player.findByPk` read in
step 4 — so every service write is autocommitted on the main connection, the
transaction's write set stays empty, and the `rollback()` on failure restores
nothing: the database keeps all writes made before the failing step. -/
def processPlayerDailyFlow (env : Env) (now : Int) (db : DB) (playerId : Nat) :
    Option String × DB :=
  -- step 1: auto-judge pending logs near deadline; each failure is caught and
  -- the loop continues
  let pending := findPendingTasksNearDeadline db playerId now
  let dbA := pending.foldl (fun acc l =>
    match judgeAndResolveTask env acc l.id with
    | .ok (_, db1) => db1
    | .error _ => acc) db
  -- step 2: stat decay
  match applyDailyDecay dbA playerId now with
  | .error e => (some e, dbA)
  | .ok (_, dbB) =>
    -- step 3: mark missed
    let marked := checkAndMarkMissedTasks dbB playerId now
    let missedTasks := marked.1
    let dbC := marked.2
    -- step 4: penalties when something was newly missed; the player lookup is
    -- the only query that receives the transaction, and it is a read
    let step4 : Except String DB :=
      if missedTasks.length > 0 then
        match findPlayer dbC playerId with
        | some _ =>
          match applyMissPenalty dbC playerId now with
          | .error e => .error e
          | .ok (_, db1) => .ok db1
        | none => .ok dbC
      else .ok dbC
    match step4 with
    | .error e => (some e, dbC)
    | .ok dbD =>
      -- step 5: next daily task
      match generateDailyTask env now dbD playerId with
      | .error e => (some e, dbD)
      | .ok (_, dbE) => (none, dbE)

/-- The daily batch job (`runDailyDecayJob` in `jobs/dailyDecay.job.ts`):
processes every player in turn, counting successes and errors; a failing
player is logged and skipped, never fatal to the batch. -/
def runDailyDecayJob (env : Env) (now : Int) (db : DB) : (Nat × Nat) × DB :=
  (db.players.map (fun p => p.id)).foldl
    (fun acc pid =>
      match processPlayerDailyFlow env now acc.2 pid with
      | (none, db1) => ((acc.1.1 + 1, acc.1.2), db1)
      | (some _, db1) => ((acc.1.1, acc.1.2 + 1), db1))
    ((0, 0), db)

/-! ## Helper lemmas -/

lemma roundRat_mono {x y : ℚ} (h : x ≤ y) : round x ≤ round y := by
  rw [round_eq, round_eq]
  exact Int.floor_le_floor (by linarith)

lemma clampStat_nonneg (v : ℚ) : 0 ≤ clampStat v := le_max_left 0 _

lemma clampStat_le (v : ℚ) : clampStat v ≤ 100 := by
  unfold clampStat
  exact max_le (by norm_num) (min_le_left _ _)

/-- Rounding then clamping (the source's `clampStat`) agrees with clamping
then rounding (the spec's `round(clamp(old + delta, 0, 100))`). -/
lemma clampStat_eq_round_clamp (v : ℚ) : clampStat v = round (max 0 (min 100 v)) := by
  unfold clampStat
  rcases lt_or_le v 0 with hneg | hpos
  · have h1 : round v ≤ 0 := by
      have := roundRat_mono hneg.le
      simpa using this
    rw [min_eq_right (h1.trans (by norm_num)), max_eq_left h1]
    rw [min_eq_right (hneg.le.trans (by norm_num)), max_eq_left hneg.le, round_zero]
  · rcases le_or_lt v 100 with h100 | h100
    · have hl : (0 : ℤ) ≤ round v := by
        have := roundRat_mono hpos
        simpa using this
      have hu : round v ≤ 100 := by
        have := roundRat_mono h100
        simpa using this
      rw [min_eq_right hu, max_eq_right hl, min_eq_right h100, max_eq_right hpos]
    · have hu : (100 : ℤ) ≤ round v := by
        have := roundRat_mono h100.le
        simpa using this
      rw [min_eq_left hu, max_eq_right (by norm_num : (0 : ℤ) ≤ 100),
        min_eq_left h100.le, max_eq_right (by norm_num : (0 : ℚ) ≤ 100)]
      simp

lemma clampStat_of_mem (n : ℤ) (h0 : 0 ≤ n) (h1 : n ≤ 100) :
    clampStat (n : ℚ) = n := by
  unfold clampStat
  rw [round_intCast]
  rw [min_eq_right h1, max_eq_right h0]

/-- Replacing the row found by a key-based `find?` with a row carrying the same
key makes the next `find?` return the replacement. -/
lemma find?_map_replace {α : Type} (idOf : α → Nat) :
    ∀ (l : List α) (pid : Nat) (p p' : α),
      l.find? (fun x => idOf x == pid) = some p → idOf p' = idOf p →
      (l.map (fun x => if idOf x == idOf p' then p' else x)).find?
          (fun x => idOf x == pid) = some p' := by
  intro l
  induction l with
  | nil => intro pid p p' h _; simp [List.find?] at h
  | cons a t ih =>
    intro pid p p' h hid
    have hppid : idOf p = pid := by
      have := List.find?_some h
      simpa using this
    by_cases ha : idOf a = pid
    · have hba : (idOf a == pid) = true := by simpa using ha
      simp only [List.find?, hba] at h
      injection h with h
      subst h
      have hrepl : (idOf a == idOf p') = true := by simp [hid]
      have hfind : (idOf p' == pid) = true := by simp [hid, ha]
      simp [List.find?, hrepl, hfind]
    · have hba : (idOf a == pid) = false := by simpa using ha
      simp only [List.find?, hba] at h
      have hkeep : (idOf a == idOf p') = false := by
        have hp' : idOf p' = pid := hid.trans hppid
        simp [hp']
        exact fun hcontra => ha hcontra
      simp only [List.map_cons, hkeep, Bool.false_eq_true, if_false, List.find?, hba]
      exact ih pid p p' h hid

/-- Replacing, by row id, the row that a key-based `find?` located with a row
carrying the same key and id makes the next key-based `find?` return the
replacement.  The search key (`keyOf`, e.g. `playerId`) may differ from the
update key (`idOf`, e.g. the primary key). -/
lemma find?_map_replace_key {α : Type} (keyOf idOf : α → Nat) :
    ∀ (l : List α) (k : Nat) (p p' : α),
      l.find? (fun x => keyOf x == k) = some p →
      keyOf p' = k → idOf p = idOf p' →
      (l.map (fun x => if idOf x == idOf p' then p' else x)).find?
          (fun x => keyOf x == k) = some p' := by
  intro l
  induction l with
  | nil => intro k p p' h _ _; simp [List.find?] at h
  | cons a t ih =>
    intro k p p' h hkey hid
    by_cases ha : keyOf a = k
    · have hba : (keyOf a == k) = true := by simpa using ha
      simp only [List.find?, hba] at h
      injection h with h
      subst h
      have hrepl : (idOf a == idOf p') = true := by simp [hid]
      have hfind : (keyOf p' == k) = true := by simp [hkey]
      simp [List.find?, hrepl, hfind]
    · have hba : (keyOf a == k) = false := by simpa using ha
      simp only [List.find?, hba] at h
      by_cases hrep : idOf a = idOf p'
      · have hrepl : (idOf a == idOf p') = true := by simpa using hrep
        have hfind : (keyOf p' == k) = true := by simp [hkey]
        simp [List.find?, hrepl, hfind]
      · have hrepl : (idOf a == idOf p') = false := by simpa using hrep
        simp only [List.map_cons, hrepl, Bool.false_eq_true, if_false, List.find?, hba]
        exact ih k p p' h hkey hid

/-! ## C1: the attribute clamp law of applyStatChange -/

/-- Core specification of `applyStatChange`: the update equation of every
attribute, the clamp bounds, unchanged unnamed attributes, persistence of the
updated row, and preservation of every other table. -/
lemma applyStatChange_spec_aux (db : DB) (playerId : Nat)
    (changes : StatChanges) (s : StatsRow)
    (hfind : findStats db playerId = some s) :
    ∃ s2 db2, applyStatChange db playerId changes = .ok (s2, db2) ∧
      findStats db2 playerId = some s2 ∧
      (db2.players = db.players ∧ db2.tasks = db.tasks ∧
       db2.taskLogs = db.taskLogs ∧ db2.penalties = db.penalties ∧
       db2.narratives = db.narratives ∧ db2.nextId = db.nextId) ∧
      (s2.physical = round (max 0 (min 100 ((s.physical : ℚ) + changes.physical.getD 0))) ∧
       s2.intelligence = round (max 0 (min 100 ((s.intelligence : ℚ) + changes.intelligence.getD 0))) ∧
       s2.discipline = round (max 0 (min 100 ((s.discipline : ℚ) + changes.discipline.getD 0))) ∧
       s2.charisma = round (max 0 (min 100 ((s.charisma : ℚ) + changes.charisma.getD 0))) ∧
       s2.confidence = round (max 0 (min 100 ((s.confidence : ℚ) + changes.confidence.getD 0))) ∧
       s2.creativity = round (max 0 (min 100 ((s.creativity : ℚ) + changes.creativity.getD 0)))) ∧
      ((0 ≤ s2.physical ∧ s2.physical ≤ 100) ∧
       (0 ≤ s2.intelligence ∧ s2.intelligence ≤ 100) ∧
       (0 ≤ s2.discipline ∧ s2.discipline ≤ 100) ∧
       (0 ≤ s2.charisma ∧ s2.charisma ≤ 100) ∧
       (0 ≤ s2.confidence ∧ s2.confidence ≤ 100) ∧
       (0 ≤ s2.creativity ∧ s2.creativity ≤ 100)) ∧
      ((changes.physical = none → 0 ≤ s.physical → s.physical ≤ 100 →
          s2.physical = s.physical) ∧
       (changes.intelligence = none → 0 ≤ s.intelligence → s.intelligence ≤ 100 →
          s2.intelligence = s.intelligence) ∧
       (changes.discipline = none → 0 ≤ s.discipline → s.discipline ≤ 100 →
          s2.discipline = s.discipline) ∧
       (changes.charisma = none → 0 ≤ s.charisma → s.charisma ≤ 100 →
          s2.charisma = s.charisma) ∧
       (changes.confidence = none → 0 ≤ s.confidence → s.confidence ≤ 100 →
          s2.confidence = s.confidence) ∧
       (changes.creativity = none → 0 ≤ s.creativity → s.creativity ≤ 100 →
          s2.creativity = s.creativity)) := by
  unfold applyStatChange
  rw [hfind]
  refine ⟨_, _, rfl, ?_, ⟨rfl, rfl, rfl, rfl, rfl, rfl⟩, ?_, ?_, ?_⟩
  · have hkey : s.playerId = playerId := by
      have := List.find?_some hfind
      simpa using this
    unfold findStats updateStatsRow
    exact find?_map_replace_key StatsRow.playerId StatsRow.id db.stats playerId s _
      hfind hkey rfl
  · exact ⟨clampStat_eq_round_clamp _, clampStat_eq_round_clamp _,
      clampStat_eq_round_clamp _, clampStat_eq_round_clamp _,
      clampStat_eq_round_clamp _, clampStat_eq_round_clamp _⟩
  · exact ⟨⟨clampStat_nonneg _, clampStat_le _⟩, ⟨clampStat_nonneg _, clampStat_le _⟩,
      ⟨clampStat_nonneg _, clampStat_le _⟩, ⟨clampStat_nonneg _, clampStat_le _⟩,
      ⟨clampStat_nonneg _, clampStat_le _⟩, ⟨clampStat_nonneg _, clampStat_le _⟩⟩
  · refine ⟨?_, ?_, ?_, ?_, ?_, ?_⟩ <;>
      (intro hnone h0 h1; simp only [hnone, Option.getD_none, add_zero];
       exact clampStat_of_mem _ h0 h1)

/-- Claim C1: for every subject with a stats row and every delta map,
`applyStatChange` sets each of the six attributes to
`round(clamp(old + delta, 0, 100))` — an integer in `[0, 100]` — and leaves
every attribute not named in the delta map unchanged (given that the stored
value was, as the data model guarantees, an integer in `[0, 100]`). -/
theorem applyStatChange_clamp_law (db : DB) (playerId : Nat)
    (changes : StatChanges) (s : StatsRow)
    (hfind : findStats db playerId = some s) :
    ∃ s2 db2, applyStatChange db playerId changes = .ok (s2, db2) ∧
      (s2.physical = round (max 0 (min 100 ((s.physical : ℚ) + changes.physical.getD 0))) ∧
       s2.intelligence = round (max 0 (min 100 ((s.intelligence : ℚ) + changes.intelligence.getD 0))) ∧
       s2.discipline = round (max 0 (min 100 ((s.discipline : ℚ) + changes.discipline.getD 0))) ∧
       s2.charisma = round (max 0 (min 100 ((s.charisma : ℚ) + changes.charisma.getD 0))) ∧
       s2.confidence = round (max 0 (min 100 ((s.confidence : ℚ) + changes.confidence.getD 0))) ∧
       s2.creativity = round (max 0 (min 100 ((s.creativity : ℚ) + changes.creativity.getD 0)))) ∧
      ((0 ≤ s2.physical ∧ s2.physical ≤ 100) ∧
       (0 ≤ s2.intelligence ∧ s2.intelligence ≤ 100) ∧
       (0 ≤ s2.discipline ∧ s2.discipline ≤ 100) ∧
       (0 ≤ s2.charisma ∧ s2.charisma ≤ 100) ∧
       (0 ≤ s2.confidence ∧ s2.confidence ≤ 100) ∧
       (0 ≤ s2.creativity ∧ s2.creativity ≤ 100)) ∧
      ((changes.physical = none → 0 ≤ s.physical → s.physical ≤ 100 →
          s2.physical = s.physical) ∧
       (changes.intelligence = none → 0 ≤ s.intelligence → s.intelligence ≤ 100 →
          s2.intelligence = s.intelligence) ∧
       (changes.discipline = none → 0 ≤ s.discipline → s.discipline ≤ 100 →
          s2.discipline = s.discipline) ∧
       (changes.charisma = none → 0 ≤ s.charisma → s.charisma ≤ 100 →
          s2.charisma = s.charisma) ∧
       (changes.confidence = none → 0 ≤ s.confidence → s.confidence ≤ 100 →
          s2.confidence = s.confidence) ∧
       (changes.creativity = none → 0 ≤ s.creativity → s.creativity ≤ 100 →
          s2.creativity = s.creativity)) := by
  obtain ⟨s2, db2, heq, -, -, hform, hrange, hunch⟩ :=
    applyStatChange_spec_aux db playerId changes s hfind
  exact ⟨s2, db2, heq, hform, hrange, hunch⟩

/-- Witness for C1 at a concrete database: one stats row at the default value
50 and a delta map pushing `physical` far above the bound. -/
theorem applyStatChange_clamp_law_witness :
    ∃ s2 db2,
      applyStatChange
        { players := [], stats := [⟨1, 1, 50, 50, 50, 50, 50, 50⟩], tasks := [],
          taskLogs := [], penalties := [], narratives := [], nextId := 2 }
        1 { physical := some 1000, discipline := some (-1000) }
        = .ok (s2, db2) ∧
      ((0 ≤ s2.physical ∧ s2.physical ≤ 100) ∧
       (0 ≤ s2.intelligence ∧ s2.intelligence ≤ 100) ∧
       (0 ≤ s2.discipline ∧ s2.discipline ≤ 100) ∧
       (0 ≤ s2.charisma ∧ s2.charisma ≤ 100) ∧
       (0 ≤ s2.confidence ∧ s2.confidence ≤ 100) ∧
       (0 ≤ s2.creativity ∧ s2.creativity ≤ 100)) ∧
      s2.confidence = 50 := by
  obtain ⟨s2, db2, heq, hform, hrange, hunch⟩ :=
    applyStatChange_clamp_law
      { players := [], stats := [⟨1, 1, 50, 50, 50, 50, 50, 50⟩], tasks := [],
        taskLogs := [], penalties := [], narratives := [], nextId := 2 }
      1 { physical := some 1000, discipline := some (-1000) }
      ⟨1, 1, 50, 50, 50, 50, 50, 50⟩ (by rfl)
  exact ⟨s2, db2, heq, hrange,
    hunch.2.2.2.2.1 rfl (by norm_num) (by norm_num)⟩

/-! ## C2: deterministic fallback of judgeTask -/

/-- The oracle path failed: transport error, missing content, parse failure,
or a response that fails validation. -/
def oracleJudgeFailed (o : OracleOutcome) : Prop :=
  match o with
  | .content j => ∃ e, validateJudgeResponse j = .error e
  | _ => True

/-- Claim C2: whenever the oracle call fails for any reason — transport error,
missing content, parse failure or validation failure — `judgeTask` returns
exactly the deterministic fallback: verdict success, xp by the fixed table
easy 20 / medium 50 / hard 100 / extreme 200, stat changes
`[targetStat ↦ +1]`, and the fixed fallback comment, for every difficulty. -/
theorem judgeTask_fallback_deterministic (task : TaskRow) (stats : StatsRow)
    (evidence : String) (o : OracleOutcome) (h : oracleJudgeFailed o) :
    judgeTask task stats evidence o = getDeterministicFallback task ∧
    getDeterministicFallback task =
      { verdict := .success
        xp := match task.difficulty with
          | .easy => 20
          | .medium => 50
          | .hard => 100
          | .extreme => 200
        statChanges := [(statTypeName task.targetStat, 1)]
        comment := "Task evaluated using system fallback." } := by
  constructor
  · cases o with
    | content j =>
      obtain ⟨e, he⟩ := h
      simp [judgeTask, he]
    | transportError m => rfl
    | noContent => rfl
    | parseFailure m => rfl
  · unfold getDeterministicFallback DEFAULT_XP_BY_DIFFICULTY
    cases htd : task.difficulty <;> simp

/-- Witness for C2: an easy task judged while the oracle returns an empty JSON
object (which fails validation at the missing verdict). -/
theorem judgeTask_fallback_deterministic_witness :
    judgeTask ⟨1, .daily, .easy, "d", .physical, 20, 0⟩
      ⟨1, 1, 50, 50, 50, 50, 50, 50⟩ "evidence" (.content (Json.obj []))
      = { verdict := .success, xp := 20, statChanges := [("physical", 1)],
          comment := "Task evaluated using system fallback." } := by
  have h := judgeTask_fallback_deterministic ⟨1, .daily, .easy, "d", .physical, 20, 0⟩
    ⟨1, 1, 50, 50, 50, 50, 50, 50⟩ "evidence" (.content (Json.obj []))
    ⟨"Judge response must include \"verdict\" field", rfl⟩
  rw [h.1, h.2]
  rfl

/-! ## C3: the comment validation rule -/

/-- Counterexample to C3 as stated: a response whose `comment` is the empty
string is accepted by `validateJudgeResponse`, not rejected — the source only
checks `typeof response.comment !== "string"`. -/
theorem validateJudgeResponse_empty_comment_accepted :
    validateJudgeResponse (Json.obj [("verdict", .str "fail"), ("xp", .num 0),
      ("statChanges", .obj []), ("comment", .str "")])
      = .ok { verdict := .fail, xp := 0, statChanges := [], comment := "" } := by
  rfl

lemma validateComment_ok {fields : List (String × Json)} {verdict : Verdict}
    {xp : Int} {sc : List (String × Rat)} {r : JudgeResponse}
    (h : validateComment fields verdict xp sc = .ok r) :
    getField fields "comment" = some (Json.str r.comment) := by
  unfold validateComment at h
  cases hg : getField fields "comment" with
  | none => rw [hg] at h; exact absurd h (by simp)
  | some v =>
    rw [hg] at h
    cases v with
    | str s =>
      injection h with h
      rw [← h]
    | null => exact absurd h (by simp)
    | bool b => exact absurd h (by simp)
    | num q => exact absurd h (by simp)
    | arr xs => exact absurd h (by simp)
    | obj fs => exact absurd h (by simp)

lemma validateVerdictRules_ok {fields : List (String × Json)} {verdict : Verdict}
    {xp : Int} {entries : List (String × Json)} {r : JudgeResponse}
    (h : validateVerdictRules fields verdict xp entries = .ok r) :
    getField fields "comment" = some (Json.str r.comment) := by
  unfold validateVerdictRules at h
  cases verdict <;> (repeat' split at h) <;>
    first
      | exact validateComment_ok h
      | simp at h

lemma validateAfterVerdict_ok {fields : List (String × Json)} {verdict : Verdict}
    {r : JudgeResponse}
    (h : validateAfterVerdict fields verdict = .ok r) :
    getField fields "comment" = some (Json.str r.comment) := by
  unfold validateAfterVerdict at h
  repeat' split at h
  all_goals
    first
      | exact validateVerdictRules_ok h
      | simp at h

lemma validateFields_ok {fields : List (String × Json)} {r : JudgeResponse}
    (h : validateFields fields = .ok r) :
    getField fields "comment" = some (Json.str r.comment) := by
  unfold validateFields at h
  repeat' split at h
  all_goals
    first
      | exact validateAfterVerdict_ok h
      | simp at h

/-- Claim C3 amended: `validateJudgeResponse` accepts a response only if its
`comment` field is present and is a string — missing or non-string comments
are rejected — but the empty string is accepted (the source never checks
non-emptiness; see the counterexample). -/
theorem validateJudgeResponse_comment_any_string (j : Json) (r : JudgeResponse)
    (h : validateJudgeResponse j = .ok r) :
    ∃ fields, j = Json.obj fields ∧
      getField fields "comment" = some (Json.str r.comment) := by
  cases j with
  | obj fields =>
    refine ⟨fields, rfl, ?_⟩
    unfold validateJudgeResponse at h
    simp [jsFalsy, jsTypeofObject] at h
    exact validateFields_ok h
  | null => exact absurd h (by simp [validateJudgeResponse, jsFalsy, jsTypeofObject])
  | bool b =>
    cases b <;>
      exact absurd h (by simp [validateJudgeResponse, jsFalsy, jsTypeofObject])
  | num q => exact absurd h (by simp [validateJudgeResponse, jsFalsy, jsTypeofObject])
  | str s => exact absurd h (by simp [validateJudgeResponse, jsFalsy, jsTypeofObject])
  | arr xs => exact absurd h (by simp [validateJudgeResponse, jsFalsy, jsTypeofObject])

/-- Witness for the amended C3 at a concrete accepted response. -/
theorem validateJudgeResponse_comment_any_string_witness :
    ∃ fields,
      (Json.obj [("verdict", Json.str "fail"), ("xp", Json.num 0),
        ("statChanges", Json.obj []), ("comment", Json.str "done")])
        = Json.obj fields ∧
      getField fields "comment" = some (Json.str
        ({ verdict := Verdict.fail, xp := 0, statChanges := [],
           comment := "done" } : JudgeResponse).comment) :=
  validateJudgeResponse_comment_any_string _ _ (by rfl)

/-! ## C6: the rank interval table -/

/-- Modelled from the spec's words: the fixed non-overlapping interval table
E:[0,999], D:[1000,4999], C:[5000,14999], B:[15000,39999], A:[40000,99999],
S:[100000,249999], SS:[250000,∞), with negative XP resolving to the lowest
rank.  Stated separately so it can be compared against the source's
`calculateRank`. -/
def rankTableSpec (totalXp : Int) : Rank :=
  if totalXp ≤ 999 then .E
  else if totalXp ≤ 4999 then .D
  else if totalXp ≤ 14999 then .C
  else if totalXp ≤ 39999 then .B
  else if totalXp ≤ 99999 then .A
  else if totalXp ≤ 249999 then .S
  else .SS

set_option maxHeartbeats 1000000 in
/-- Claim C6: `calculateRank` never throws and is exactly the fixed interval
table, including the stated boundary values, and every negative XP resolves to
rank E. -/
theorem calculateRank_interval_table :
    (∀ totalXp : Int, calculateRank totalXp = .ok (rankTableSpec totalXp)) ∧
    calculateRank 999 = .ok .E ∧
    calculateRank 1000 = .ok .D ∧
    calculateRank 249999 = .ok .S ∧
    calculateRank 250000 = .ok .SS ∧
    (∀ totalXp : Int, totalXp < 0 → calculateRank totalXp = .ok .E) := by
  have htab : ∀ x : Int, calculateRank x = .ok (rankTableSpec x) := by
    intro x
    unfold calculateRank rankTableSpec
    split_ifs <;> first | rfl | omega
  refine ⟨htab, ?_, ?_, ?_, ?_, ?_⟩
  · rw [htab 999]; norm_num [rankTableSpec]
  · rw [htab 1000]; norm_num [rankTableSpec]
  · rw [htab 249999]; norm_num [rankTableSpec]
  · rw [htab 250000]; norm_num [rankTableSpec]
  · intro x hx
    have hx999 : x ≤ 999 := by omega
    rw [htab x]
    simp [rankTableSpec, hx999]

/-- Witness for C6 at a concrete negative XP value. -/
theorem calculateRank_interval_table_witness : calculateRank (-5) = .ok .E :=
  calculateRank_interval_table.2.2.2.2.2 (-5) (by norm_num)

/-! ## C5: addXp adds and recomputes level and rank from the new total -/

lemma calculateRank_total (x : Int) : ∃ r, calculateRank x = .ok r := by
  unfold calculateRank
  split_ifs <;> first | exact ⟨_, rfl⟩ | omega

/-- Core specification of `addXp`: the XP sum, the recomputation of level and
rank from the new total, persistence, and the zero no-op. -/
lemma addXp_spec_aux (db : DB) (playerId : Nat) (amount : Int) (p : Player)
    (hp : findPlayer db playerId = some p) :
    ∃ p2 db2, addXp db playerId amount = .ok (p2, db2) ∧
      p2.totalXp = p.totalXp + amount ∧
      (amount ≠ 0 →
        p2.level = calculateLevel (p.totalXp + amount) ∧
        calculateRank (p.totalXp + amount) = .ok p2.rank ∧
        findPlayer db2 playerId = some p2) ∧
      (amount = 0 → p2 = p ∧ db2 = db) := by
  by_cases h0 : amount = 0
  · subst h0
    unfold addXp
    rw [if_pos rfl, hp]
    exact ⟨p, db, rfl, by omega, fun hne => absurd rfl hne, fun _ => ⟨rfl, rfl⟩⟩
  · obtain ⟨rk, hrk⟩ := calculateRank_total (p.totalXp + amount)
    unfold addXp recalculateLevelAndRank
    rw [if_neg h0]
    simp only [hp, hrk]
    refine ⟨_, _, rfl, rfl, fun _ => ⟨rfl, rfl, ?_⟩, fun hz => absurd hz h0⟩
    unfold findPlayer updatePlayerRow
    have step1 := find?_map_replace Player.id db.players playerId p
      { p with totalXp := p.totalXp + amount } hp rfl
    exact find?_map_replace Player.id _ playerId
      { p with totalXp := p.totalXp + amount } _ step1 rfl

/-- Claim C5: for every integer amount and existing player, `addXp` sets
`totalXp + amount`, recomputes level and rank solely from the new total and
persists them together; `amount = 0` changes nothing and returns the current
state. -/
theorem addXp_spec (db : DB) (playerId : Nat) (amount : Int) (p : Player)
    (hp : findPlayer db playerId = some p) :
    ∃ p2 db2, addXp db playerId amount = .ok (p2, db2) ∧
      p2.totalXp = p.totalXp + amount ∧
      (amount ≠ 0 →
        p2.level = calculateLevel (p.totalXp + amount) ∧
        calculateRank (p.totalXp + amount) = .ok p2.rank ∧
        findPlayer db2 playerId = some p2) ∧
      (amount = 0 → p2 = p ∧ db2 = db) :=
  addXp_spec_aux db playerId amount p hp

/-- Witness for C5: adding 5 XP to an existing player, and a zero amount being
a no-op, at a concrete database. -/
theorem addXp_spec_witness :
    (∃ p2 db2,
      addXp ⟨[⟨1, Rank.E, 1, 10⟩], [], [], [], [], [], 2⟩ 1 5 = .ok (p2, db2) ∧
      p2.totalXp = 10 + 5 ∧ p2.level = calculateLevel (10 + 5) ∧
      calculateRank (10 + 5) = .ok p2.rank ∧ findPlayer db2 1 = some p2) ∧
    (∃ p3 db3,
      addXp ⟨[⟨1, Rank.E, 1, 10⟩], [], [], [], [], [], 2⟩ 1 0 = .ok (p3, db3) ∧
      p3 = (⟨1, Rank.E, 1, 10⟩ : Player) ∧
      db3 = (⟨[⟨1, Rank.E, 1, 10⟩], [], [], [], [], [], 2⟩ : DB)) := by
  constructor
  · obtain ⟨p2, db2, heq, hxp, hne, _⟩ :=
      addXp_spec ⟨[⟨1, Rank.E, 1, 10⟩], [], [], [], [], [], 2⟩ 1 5
        ⟨1, Rank.E, 1, 10⟩ (by rfl)
    obtain ⟨hl, hr, hf⟩ := hne (by norm_num)
    exact ⟨p2, db2, heq, hxp, hl, hr, hf⟩
  · obtain ⟨p3, db3, heq, _, _, hz⟩ :=
      addXp_spec ⟨[⟨1, Rank.E, 1, 10⟩], [], [], [], [], [], 2⟩ 1 0
        ⟨1, Rank.E, 1, 10⟩ (by rfl)
    obtain ⟨hp3, hdb3⟩ := hz rfl
    exact ⟨p3, db3, heq, hp3, hdb3⟩

/-! ## C7: the level formula -/

lemma xpRequiredFn_def (l : ℕ) :
    xpRequiredFn l = (Nat.sqrt (40000 * l ^ 3) + 1) / 2 := rfl

lemma xpRequiredFn_one : xpRequiredFn 1 = 100 := by
  rw [xpRequiredFn_def]; norm_num

/-- The exact-arithmetic square-root encoding agrees with the spec's
`round(100 · level^1.5)` read over the reals. -/
lemma xpRequiredFn_eq_round (l : ℕ) :
    (xpRequiredFn l : ℤ) = round ((100 : ℝ) * l * Real.sqrt l) := by
  have key : (100 : ℝ) * l * Real.sqrt l
      = Real.sqrt ((40000 * l ^ 3 : ℕ) : ℝ) / 2 := by
    have hcast : ((40000 * l ^ 3 : ℕ) : ℝ) = ((200 * l : ℕ) : ℝ) ^ 2 * l := by
      push_cast; ring
    rw [hcast, Real.sqrt_mul (by positivity), Real.sqrt_sq (by positivity)]
    push_cast; ring
  rw [round_eq, key]
  unfold xpRequiredFn
  set s : ℕ := Nat.sqrt (40000 * l ^ 3) with hs
  have hs1 : (s : ℝ) ≤ Real.sqrt ((40000 * l ^ 3 : ℕ) : ℝ) :=
    Real.nat_sqrt_le_real_sqrt
  have hs2 : Real.sqrt ((40000 * l ^ 3 : ℕ) : ℝ) < s + 1 :=
    Real.real_sqrt_lt_nat_sqrt_succ
  have hdiv := Nat.div_add_mod (s + 1) 2
  have hmod : (s + 1) % 2 < 2 := Nat.mod_lt _ (by norm_num)
  set m : ℕ := (s + 1) / 2 with hm
  have h2m1 : 2 * m ≤ s + 1 := by omega
  have h2m2 : s + 1 < 2 * m + 2 := by omega
  have h2m1R : (2 * m : ℝ) ≤ (s : ℝ) + 1 := by exact_mod_cast h2m1
  have h2m2R : (s : ℝ) + 1 ≤ 2 * m + 1 := by
    have : s + 1 ≤ 2 * m + 1 := by omega
    exact_mod_cast this
  symm
  apply Int.floor_eq_iff.mpr
  constructor
  · push_cast at hs1 h2m1R ⊢
    linarith
  · push_cast at hs2 h2m2R ⊢
    linarith

lemma xpRequiredFn_lt_succ (l : ℕ) (hl : 1 ≤ l) :
    xpRequiredFn l < xpRequiredFn (l + 1) := by
  unfold xpRequiredFn
  have hstep : Nat.sqrt (40000 * l ^ 3) + 2 ≤ Nat.sqrt (40000 * (l + 1) ^ 3) := by
    apply Nat.le_sqrt.mpr
    have hsle : Nat.sqrt (40000 * l ^ 3) ≤ 200 * l ^ 2 := by
      have hmono : Nat.sqrt (40000 * l ^ 3) ≤ Nat.sqrt (40000 * l ^ 4) := by
        apply Nat.sqrt_le_sqrt
        have : l ^ 3 ≤ l ^ 4 := Nat.pow_le_pow_right hl (by norm_num)
        omega
      have h4 : Nat.sqrt (40000 * l ^ 4) = 200 * l ^ 2 := by
        have he : 40000 * l ^ 4 = (200 * l ^ 2) ^ 2 := by ring
        rw [he, Nat.sqrt_eq']
      omega
    have hsq : Nat.sqrt (40000 * l ^ 3) * Nat.sqrt (40000 * l ^ 3) ≤ 40000 * l ^ 3 :=
      Nat.sqrt_le _
    nlinarith [hl, hsle, hsq]
  omega

lemma xpRequiredFn_mono {a b : ℕ} (ha : 1 ≤ a) (hab : a ≤ b) :
    xpRequiredFn a ≤ xpRequiredFn b := by
  induction b, hab using Nat.le_induction with
  | base => exact le_rfl
  | succ n hn ih => exact ih.trans (xpRequiredFn_lt_succ n (ha.trans hn)).le

lemma xpRequiredFn_ge (m : ℕ) : 100 * m ≤ xpRequiredFn m := by
  unfold xpRequiredFn
  rcases Nat.eq_zero_or_pos m with h0 | hpos
  · subst h0; simp
  · have hm3 : m ^ 2 ≤ m ^ 3 := Nat.pow_le_pow_right hpos (by norm_num)
    have hle : 200 * m ≤ Nat.sqrt (40000 * m ^ 3) := by
      apply Nat.le_sqrt.mpr
      nlinarith [hm3]
    omega

lemma calculateLevelAux_ge (xp : Int) :
    ∀ (fuel v : ℕ), v ≤ calculateLevelAux xp fuel v := by
  intro fuel
  induction fuel with
  | zero => intro v; simp [calculateLevelAux]
  | succ f ih =>
    intro v
    unfold calculateLevelAux
    split
    · exact le_rfl
    · exact (Nat.le_succ v).trans (ih (v + 1))

lemma calculateLevelAux_keeps (xp : Int) :
    ∀ (fuel v : ℕ), (xpRequiredFn v : Int) ≤ xp →
      (xpRequiredFn (calculateLevelAux xp fuel v) : Int) ≤ xp := by
  intro fuel
  induction fuel with
  | zero => intro v h; simpa [calculateLevelAux] using h
  | succ f ih =>
    intro v h
    unfold calculateLevelAux
    split
    · exact h
    · next hcond => exact ih (v + 1) (by omega)

lemma calculateLevelAux_start_or (xp : Int) :
    ∀ (fuel v : ℕ), calculateLevelAux xp fuel v = v ∨
      (xpRequiredFn (calculateLevelAux xp fuel v) : Int) ≤ xp := by
  intro fuel
  induction fuel with
  | zero => intro v; left; simp [calculateLevelAux]
  | succ f ih =>
    intro v
    unfold calculateLevelAux
    split
    · left; rfl
    · next hcond => right; exact calculateLevelAux_keeps xp f (v + 1) (by omega)

lemma calculateLevelAux_stops (xp : Int) :
    ∀ (fuel v : ℕ), 1 ≤ v → xp < (v : Int) + fuel →
      xp < (xpRequiredFn (calculateLevelAux xp fuel v + 1) : Int) := by
  intro fuel
  induction fuel with
  | zero =>
    intro v hv hlt
    have hge := xpRequiredFn_ge (v + 1)
    simp only [calculateLevelAux]
    push_cast at hlt ⊢
    omega
  | succ f ih =>
    intro v hv hlt
    unfold calculateLevelAux
    split
    · next hcond => exact hcond
    · exact ih (v + 1) (by omega) (by push_cast at hlt ⊢; omega)

/-- Claim C7: `calculateXpRequired` is `round(100 · level^1.5)` for levels
≥ 1 (with the three stated values), and `calculateLevel totalXp` is the
largest level ≥ 1 whose required XP does not exceed `totalXp`, with level 1 as
the floor for smaller or negative totals (and `calculateLevel 1118 = 5`). -/
theorem xp_level_formula :
    calculateXpRequired 1 = .ok 100 ∧
    calculateXpRequired 5 = .ok 1118 ∧
    calculateXpRequired 20 = .ok 8944 ∧
    (∀ l : ℕ, 1 ≤ l → calculateXpRequired (l : Int) = .ok (xpRequiredFn l)) ∧
    (∀ l : ℕ, (xpRequiredFn l : Int) = round ((100 : ℝ) * l * Real.sqrt l)) ∧
    calculateLevel 1118 = 5 ∧
    (∀ xp : Int,
      1 ≤ calculateLevel xp ∧
      (∀ l : ℕ, (xpRequiredFn l : Int) ≤ xp → l ≤ calculateLevel xp) ∧
      (100 ≤ xp → (xpRequiredFn (calculateLevel xp) : Int) ≤ xp) ∧
      (xp < 100 → calculateLevel xp = 1)) := by
  have hchar : ∀ xp : Int,
      1 ≤ calculateLevel xp ∧
      (∀ l : ℕ, (xpRequiredFn l : Int) ≤ xp → l ≤ calculateLevel xp) ∧
      (100 ≤ xp → (xpRequiredFn (calculateLevel xp) : Int) ≤ xp) ∧
      (xp < 100 → calculateLevel xp = 1) := by
    intro xp
    have hL1 : 1 ≤ calculateLevel xp := calculateLevelAux_ge xp _ 1
    have hstop : xp < (xpRequiredFn (calculateLevel xp + 1) : Int) := by
      apply calculateLevelAux_stops xp (xp.toNat + 1) 1 le_rfl
      have := Int.self_le_toNat xp
      push_cast
      omega
    have hor : calculateLevel xp = 1 ∨ (xpRequiredFn (calculateLevel xp) : Int) ≤ xp :=
      calculateLevelAux_start_or xp (xp.toNat + 1) 1
    refine ⟨hL1, ?_, ?_, ?_⟩
    · intro l hl
      by_contra hgt
      push_neg at hgt
      have hmono : xpRequiredFn (calculateLevel xp + 1) ≤ xpRequiredFn l := by
        apply xpRequiredFn_mono (by omega) (by omega)
      have hc : (xpRequiredFn (calculateLevel xp + 1) : Int) ≤ xp := by
        calc (xpRequiredFn (calculateLevel xp + 1) : Int)
            ≤ (xpRequiredFn l : Int) := by exact_mod_cast hmono
          _ ≤ xp := hl
      omega
    · intro h100
      apply calculateLevelAux_keeps xp (xp.toNat + 1) 1
      rw [xpRequiredFn_one]
      exact h100
    · intro hlt
      rcases hor with h | h
      · exact h
      · exfalso
        have hge : 100 * calculateLevel xp ≤ xpRequiredFn (calculateLevel xp) :=
          xpRequiredFn_ge (calculateLevel xp)
        have hcast : ((100 * calculateLevel xp : ℕ) : Int)
            ≤ (xpRequiredFn (calculateLevel xp) : Int) := by exact_mod_cast hge
        push_cast at hcast
        omega
  have h5 : calculateLevel 1118 = 5 := by
    obtain ⟨h1, hmax, hle, _⟩ := hchar 1118
    have hub : calculateLevel 1118 ≤ 5 := by
      by_contra hgt
      push_neg at hgt
      have hmono : xpRequiredFn 6 ≤ xpRequiredFn (calculateLevel 1118) :=
        xpRequiredFn_mono (by norm_num) (by omega)
      have h6 : xpRequiredFn 6 = 1470 := by rw [xpRequiredFn_def]; norm_num
      have hx : (xpRequiredFn (calculateLevel 1118) : Int) ≤ 1118 := hle (by norm_num)
      rw [h6] at hmono
      have hc : (1470 : Int) ≤ (xpRequiredFn (calculateLevel 1118) : Int) := by
        exact_mod_cast hmono
      omega
    have hlb : 5 ≤ calculateLevel 1118 := by
      apply hmax 5
      have h5v : xpRequiredFn 5 = 1118 := by rw [xpRequiredFn_def]; norm_num
      rw [h5v]
      norm_num
    omega
  refine ⟨?_, ?_, ?_, ?_, xpRequiredFn_eq_round, h5, hchar⟩
  · unfold calculateXpRequired
    rw [if_neg (by norm_num), show Int.toNat 1 = 1 from rfl, xpRequiredFn_def]
    norm_num
  · unfold calculateXpRequired
    rw [if_neg (by norm_num), show Int.toNat 5 = 5 from rfl, xpRequiredFn_def]
    norm_num
  · unfold calculateXpRequired
    rw [if_neg (by norm_num), show Int.toNat 20 = 20 from rfl, xpRequiredFn_def]
    norm_num
  · intro l hl
    unfold calculateXpRequired
    rw [if_neg (by omega)]
    simp

/-- Witness for C7: the general formula instantiated at level 5, the level
characterization at totalXp 1118 and the floor at totalXp 7. -/
theorem xp_level_formula_witness :
    calculateXpRequired ((5 : ℕ) : Int) = .ok (xpRequiredFn 5) ∧
    5 ≤ calculateLevel 1118 ∧
    calculateLevel 7 = 1 := by
  refine ⟨xp_level_formula.2.2.2.1 5 (by norm_num), ?_, ?_⟩
  · apply (xp_level_formula.2.2.2.2.2.2 1118).2.1 5
    rw [show xpRequiredFn 5 = 1118 from by rw [xpRequiredFn_def]; norm_num]
    norm_num
  · exact (xp_level_formula.2.2.2.2.2.2 7).2.2.2 (by norm_num)

/-! ## C8: the penalty escalation ladder -/

/-- `addXp` touches only the players table: every other table and the id
counter are unchanged. -/
lemma addXp_preserves {db : DB} {playerId : Nat} {amount : Int} {p2 : Player}
    {db2 : DB} (h : addXp db playerId amount = .ok (p2, db2)) :
    db2.stats = db.stats ∧ db2.tasks = db.tasks ∧ db2.taskLogs = db.taskLogs ∧
    db2.penalties = db.penalties ∧ db2.narratives = db.narratives ∧
    db2.nextId = db.nextId := by
  unfold addXp recalculateLevelAndRank at h
  repeat' split at h
  all_goals try (dsimp only at h; split at h)
  all_goals
    first
      | (simp only [Except.ok.injEq, Prod.mk.injEq] at h
         obtain ⟨h1, h2⟩ := h
         subst h2
         exact ⟨rfl, rfl, rfl, rfl, rfl, rfl⟩)
      | simp at h

/-- Claim C8: `applyPenalty` behaves by ascending PSI band — `[0,5)` a warning
sanction touching no other table, `[5,10)` the stat deltas discipline −1 and
confidence −0.5 (50 staying 50 after rounding), `[10,20)` an XP debit of
`round(psi·2)` with a sanction expiring in 24 hours, and `[20,∞)` a rank lock
expiring after `min(⌊psi/5⌋, 30)` days under which `isRankLocked` holds. -/
theorem applyPenalty_ladder (db : DB) (playerId : Nat) (psi : ℚ) (now : Int) :
    (0 ≤ psi → psi < 5 →
      ∃ db2 row, applyPenalty db playerId psi now = .ok ("warning", db2) ∧
        db2.players = db.players ∧ db2.stats = db.stats ∧
        db2.tasks = db.tasks ∧ db2.taskLogs = db.taskLogs ∧
        db2.narratives = db.narratives ∧
        db2.penalties = db.penalties ++ [row] ∧
        row.reason = .missed_task ∧ row.expiresAt = none) ∧
    (5 ≤ psi → psi < 10 → ∀ s, findStats db playerId = some s →
      ∃ db2 s2 row, applyPenalty db playerId psi now = .ok ("stat_decay", db2) ∧
        findStats db2 playerId = some s2 ∧
        s2.discipline = clampStat ((s.discipline : ℚ) - 1) ∧
        s2.confidence = clampStat ((s.confidence : ℚ) - 1/2) ∧
        (s.confidence = 50 → s2.confidence = 50) ∧
        db2.penalties = db.penalties ++ [row] ∧
        row.reason = .missed_task ∧ row.expiresAt = none) ∧
    (10 ≤ psi → psi < 20 → ∀ p, findPlayer db playerId = some p →
      ∃ db2 p2 row, applyPenalty db playerId psi now = .ok ("xp_loss", db2) ∧
        findPlayer db2 playerId = some p2 ∧
        p2.totalXp = p.totalXp - round (psi * 2) ∧
        db2.penalties = db.penalties ++ [row] ∧
        row.reason = .xp_loss ∧ row.expiresAt = some (now + dayMs)) ∧
    (20 ≤ psi →
      ∃ db2 row, applyPenalty db playerId psi now = .ok ("rank_lock", db2) ∧
        db2.penalties = db.penalties ++ [row] ∧
        row.reason = .rank_lock ∧
        row.expiresAt = some (now + min ⌊psi / 5⌋ 30 * dayMs) ∧
        isRankLocked db2 playerId now = true) := by
  refine ⟨?_, ?_, ?_, ?_⟩
  · intro _ h5
    unfold applyPenalty
    rw [if_pos h5]
    exact ⟨_, _, rfl, rfl, rfl, rfl, rfl, rfl, rfl, rfl, rfl⟩
  · intro h5 h10 s hs
    obtain ⟨s2, db1, heq, hpers, htab, hform, -, -⟩ :=
      applyStatChange_spec_aux db playerId
        { discipline := some (-1), confidence := some (-(1/2)) } s hs
    unfold applyPenalty
    rw [if_neg (by linarith), if_pos ⟨h5, h10⟩, heq]
    refine ⟨_, s2,
      ⟨db1.nextId, playerId, .missed_task, psi, none, now⟩,
      rfl, hpers, ?_, ?_, ?_, ?_, rfl, rfl⟩
    · rw [hform.2.2.1, clampStat_eq_round_clamp]
      exact congrArg (fun v : ℚ => round (max 0 (min 100 v)))
        (by simp only [Option.getD_some]; ring)
    · rw [hform.2.2.2.2.1, clampStat_eq_round_clamp]
      exact congrArg (fun v : ℚ => round (max 0 (min 100 v)))
        (by simp only [Option.getD_some]; ring)
    · intro hc
      rw [hform.2.2.2.2.1, hc]
      rw [show (((50 : Int) : ℚ) + (Option.getD (some (-(1/2) : ℚ)) 0)) = 99/2 from by
        simp only [Option.getD_some]; norm_num]
      rw [show min (100 : ℚ) (99/2) = 99/2 from by norm_num [min_def]]
      rw [show max (0 : ℚ) (99/2) = 99/2 from by norm_num [max_def]]
      rw [show round ((99 : ℚ)/2) = 50 from by rw [round_eq]; norm_num]
    · unfold createPenalty
      rw [htab.2.2.2.1]
  · intro h10 h20 p hp
    unfold applyPenalty
    rw [if_neg (by linarith), if_neg (by rintro ⟨-, h⟩; linarith),
      if_pos ⟨h10, h20⟩]
    obtain ⟨p2, db2, heq, hxp, hne, -⟩ :=
      addXp_spec_aux db playerId (-(round (psi * 2))) p hp
    have hpres := addXp_preserves heq
    rw [heq]
    have hrpos : (0 : Int) < round (psi * 2) := by
      have h2 : (20 : ℚ) ≤ psi * 2 := by linarith
      have h3 := roundRat_mono h2
      rw [show round ((20 : ℚ)) = 20 from by rw [round_eq]; norm_num] at h3
      omega
    obtain ⟨-, -, hf⟩ := hne (by omega)
    refine ⟨_, p2,
      ⟨db2.nextId, playerId, .xp_loss, psi, some (now + dayMs), now⟩,
      rfl, hf, by omega, ?_, rfl, rfl⟩
    unfold createPenalty
    rw [hpres.2.2.2.1]
  · intro h20
    unfold applyPenalty
    rw [if_neg (by linarith), if_neg (by rintro ⟨-, h⟩; linarith),
      if_neg (by rintro ⟨-, h⟩; linarith), if_pos h20]
    refine ⟨_, _, rfl, rfl, rfl, rfl, ?_⟩
    have h4 : (4 : Int) ≤ min ⌊psi / 5⌋ 30 := by
      refine le_min ?_ (by norm_num)
      apply Int.le_floor.mpr
      push_cast
      linarith
    have hexp : now < now + min ⌊psi / 5⌋ 30 * dayMs := by
      have : (0 : Int) < min ⌊psi / 5⌋ 30 * dayMs := by
        apply mul_pos (by omega)
        norm_num [dayMs]
      omega
    unfold isRankLocked createPenalty
    rw [List.any_append]
    simp [hexp]

/-- Witness for C8: the four bands instantiated at PSI 4, 7, 15 and 25 on
concrete databases. -/
theorem applyPenalty_ladder_witness :
    (∃ db2 row, applyPenalty ⟨[], [], [], [], [], [], 1⟩ 1 4 0
        = .ok ("warning", db2) ∧ row ∈ db2.penalties ∧ row.expiresAt = none) ∧
    (∃ db2 s2, applyPenalty ⟨[], [⟨1, 1, 50, 50, 50, 50, 50, 50⟩], [], [], [], [], 2⟩
          1 7 0 = .ok ("stat_decay", db2) ∧
        findStats db2 1 = some s2 ∧ s2.discipline = 49 ∧ s2.confidence = 50) ∧
    (∃ db2 p2, applyPenalty ⟨[⟨1, Rank.E, 1, 100⟩], [], [], [], [], [], 2⟩
          1 15 0 = .ok ("xp_loss", db2) ∧
        findPlayer db2 1 = some p2 ∧ p2.totalXp = 70) ∧
    (∃ db2, applyPenalty ⟨[], [], [], [], [], [], 1⟩ 1 25 0
        = .ok ("rank_lock", db2) ∧ isRankLocked db2 1 0 = true) := by
  refine ⟨?_, ?_, ?_, ?_⟩
  · obtain ⟨db2, row, heq, -, -, -, -, -, hpen, -, hexp⟩ :=
      (applyPenalty_ladder ⟨[], [], [], [], [], [], 1⟩ 1 4 0).1
        (by norm_num) (by norm_num)
    exact ⟨db2, row, heq, by rw [hpen]; exact List.mem_append_right _ (by simp), hexp⟩
  · obtain ⟨db2, s2, row, heq, hfind, hdisc, -, hconf50, -, -, -⟩ :=
      (applyPenalty_ladder ⟨[], [⟨1, 1, 50, 50, 50, 50, 50, 50⟩], [], [], [], [], 2⟩
          1 7 0).2.1
        (by norm_num) (by norm_num) ⟨1, 1, 50, 50, 50, 50, 50, 50⟩ (by rfl)
    refine ⟨db2, s2, heq, hfind, ?_, hconf50 rfl⟩
    rw [hdisc]
    unfold clampStat
    rw [show (((50 : Int) : ℚ) - 1) = 49 from by norm_num]
    rw [show round ((49 : ℚ)) = 49 from by rw [round_eq]; norm_num]
    norm_num [min_def, max_def]
  · obtain ⟨db2, p2, row, heq, hfind, hxp, -, -, -⟩ :=
      (applyPenalty_ladder ⟨[⟨1, Rank.E, 1, 100⟩], [], [], [], [], [], 2⟩
          1 15 0).2.2.1
        (by norm_num) (by norm_num) ⟨1, Rank.E, 1, 100⟩ (by rfl)
    refine ⟨db2, p2, heq, hfind, ?_⟩
    rw [hxp]
    rw [show ((15 : ℚ) * 2) = 30 from by norm_num]
    rw [show round ((30 : ℚ)) = 30 from by rw [round_eq]; norm_num]
    norm_num
  · obtain ⟨db2, row, heq, -, -, -, hlock⟩ :=
      (applyPenalty_ladder ⟨[], [], [], [], [], [], 1⟩ 1 25 0).2.2.2
        (by norm_num)
    exact ⟨db2, heq, hlock⟩

/-! ## C10: permanence of warning and stat-decay sanctions -/

/-- Claim C10: sanctions created by the warning and stat-decay bands (PSI
below 10) carry no `expiresAt`; `getActivePenalties` treats a null
`expiresAt` as permanently active at any time, and `cleanupExpiredPenalties`
never deletes such a sanction. -/
theorem permanent_sanctions_never_cleaned (db : DB) (playerId : Nat)
    (psi : ℚ) (now tCheck : Int) :
    (psi < 10 → ∀ kind db2, applyPenalty db playerId psi now = .ok (kind, db2) →
      ∃ row, db2.penalties = db.penalties ++ [row] ∧
        row.reason = .missed_task ∧ row.expiresAt = none) ∧
    (∀ row, row ∈ db.penalties → row.playerId = playerId → row.expiresAt = none →
      row ∈ getActivePenalties db playerId tCheck) ∧
    (∀ row, row ∈ db.penalties → row.expiresAt = none →
      row ∈ (cleanupExpiredPenalties db tCheck).2.penalties) := by
  refine ⟨?_, ?_, ?_⟩
  · intro hlt kind db2 heq
    unfold applyPenalty at heq
    split_ifs at heq with h1 h2 h3 h4
    · simp only [Except.ok.injEq, Prod.mk.injEq] at heq
      obtain ⟨-, h⟩ := heq
      subst h
      exact ⟨⟨db.nextId, playerId, .missed_task, psi, none, now⟩, rfl, rfl, rfl⟩
    · rcases hsc : applyStatChange db playerId
          { discipline := some (-1), confidence := some (-(1/2)) } with e | pr
      · rw [hsc] at heq
        simp at heq
      · rw [hsc] at heq
        obtain ⟨s1, db1⟩ := pr
        simp only [Except.ok.injEq, Prod.mk.injEq] at heq
        obtain ⟨-, h⟩ := heq
        subst h
        refine ⟨⟨db1.nextId, playerId, .missed_task, psi, none, now⟩, ?_, rfl, rfl⟩
        have : db1.penalties = db.penalties := by
          obtain ⟨s, hs⟩ : ∃ s, findStats db playerId = some s := by
            unfold applyStatChange at hsc
            rcases hf : findStats db playerId with - | s
            · rw [hf] at hsc; simp at hsc
            · exact ⟨s, rfl⟩
          obtain ⟨s2x, db2x, heq2, -, htab, -, -, -⟩ :=
            applyStatChange_spec_aux db playerId
              { discipline := some (-1), confidence := some (-(1/2)) } s hs
          rw [hsc] at heq2
          simp only [Except.ok.injEq, Prod.mk.injEq] at heq2
          obtain ⟨-, h⟩ := heq2
          rw [h]
          exact htab.2.2.2.1
        unfold createPenalty
        rw [this]
    · exact absurd h3.1 (by linarith)
    · exact absurd h4 (by linarith)
    · exfalso
      push_neg at h1 h2
      have := h2 h1
      linarith
  · intro row hmem hpid hexp
    unfold getActivePenalties
    rw [List.mem_filter]
    refine ⟨hmem, ?_⟩
    rw [hexp]
    simp [hpid]
  · intro row hmem hexp
    unfold cleanupExpiredPenalties
    rw [List.mem_filter]
    refine ⟨hmem, ?_⟩
    rw [hexp]

/-- Witness for C10: a concrete warning sanction is created without expiry,
stays active far in the future, and survives cleanup. -/
theorem permanent_sanctions_never_cleaned_witness :
    (∃ row, (createPenalty ⟨[], [], [], [], [], [], 1⟩ 1 .missed_task 4 none 0).penalties
        = [] ++ [row] ∧ row.reason = .missed_task ∧ row.expiresAt = none) ∧
    (⟨7, 1, PenaltyReason.missed_task, 3, none, 0⟩ : PenaltyRow) ∈
      getActivePenalties
        ⟨[], [], [], [], [⟨7, 1, .missed_task, 3, none, 0⟩], [], 8⟩ 1 99999999 ∧
    (⟨7, 1, PenaltyReason.missed_task, 3, none, 0⟩ : PenaltyRow) ∈
      (cleanupExpiredPenalties
        ⟨[], [], [], [], [⟨7, 1, .missed_task, 3, none, 0⟩], [], 8⟩ 99999999).2.penalties := by
  have h := permanent_sanctions_never_cleaned
    ⟨[], [], [], [], [⟨7, 1, .missed_task, 3, none, 0⟩], [], 8⟩ 1 4 0 99999999
  refine ⟨?_, ?_, ?_⟩
  · obtain ⟨row, hpen, hreason, hexp⟩ :=
      (permanent_sanctions_never_cleaned ⟨[], [], [], [], [], [], 1⟩ 1 4 0 99999999).1
        (by norm_num) "warning" (createPenalty ⟨[], [], [], [], [], [], 1⟩ 1 .missed_task 4 none 0)
        (by rfl)
    exact ⟨row, hpen, hreason, hexp⟩
  · exact h.2.1 ⟨7, 1, .missed_task, 3, none, 0⟩ (by simp) rfl rfl
  · exact h.2.2 ⟨7, 1, .missed_task, 3, none, 0⟩ (by simp) rfl

/-! ## C9: submitTask -/

/-- Mapping a by-id replacement over rows none of which carry the id is the
identity. -/
lemma map_replace_of_forall_ne {α : Type} (idOf : α → Nat) (x' : α) :
    ∀ (t : List α), (∀ y ∈ t, idOf y ≠ idOf x') →
      t.map (fun y => if idOf y == idOf x' then x' else y) = t := by
  intro t
  induction t with
  | nil => intro _; rfl
  | cons a s ih =>
    intro hall
    have ha : (idOf a == idOf x') = false := by
      simpa using hall a (by simp)
    simp only [List.map_cons, ha, Bool.false_eq_true, if_false]
    rw [ih (fun y hy => hall y (by simp [hy]))]

/-- Under unique row ids, replacing a member row by one with the same id and
the same predicate value leaves the filtered count unchanged. -/
lemma filter_length_replace {α : Type} (idOf : α → Nat) (p : α → Bool) :
    ∀ (l : List α) (x x' : α), x ∈ l → (l.map idOf).Nodup →
      idOf x' = idOf x → p x' = p x →
      ((l.map (fun y => if idOf y == idOf x' then x' else y)).filter p).length
        = (l.filter p).length := by
  intro l
  induction l with
  | nil => intro x x' hmem; simp at hmem
  | cons a t ih =>
    intro x x' hmem hnodup hid hp
    have hnd1 : idOf a ∉ t.map idOf := by
      have := hnodup
      simp only [List.map_cons, List.nodup_cons] at this
      exact this.1
    have hnd2 : (t.map idOf).Nodup := by
      have := hnodup
      simp only [List.map_cons, List.nodup_cons] at this
      exact this.2
    rcases List.mem_cons.mp hmem with hxa | hxt
    · subst hxa
      have hrep : (idOf x == idOf x') = true := by simp [hid]
      have hrest : t.map (fun y => if idOf y == idOf x' then x' else y) = t := by
        apply map_replace_of_forall_ne
        intro y hy hcontra
        exact hnd1 (by rw [← hcontra] at hid; rw [← hid]; exact List.mem_map_of_mem _ hy)
      simp only [List.map_cons, hrep, if_true, hrest]
      rcases hpa : p x with htrue | hfalse
      · simp [List.filter_cons, hp, hpa]
      · simp [List.filter_cons, hp, hpa]
    · have hne : (idOf a == idOf x') = false := by
        have hxin : idOf x ∈ t.map idOf := List.mem_map_of_mem _ hxt
        rw [hid]
        by_contra hcontra
        simp only [Bool.not_eq_false, beq_iff_eq] at hcontra
        exact hnd1 (hcontra ▸ hxin)
      have hrec := ih x x' hxt hnd2 hid hp
      simp only [List.map_cons, hne, Bool.false_eq_true, if_false, List.filter_cons]
      rcases hpa : p a with htrue | hfalse <;> simpa [hpa] using hrec

/-- Claim C9: `submitTask` fails with the not-found error when the task is
absent and with the deadline error when `now` is past the deadline; an
existing pending log for the (task, player) pair is returned idempotently
(receiving the evidence only when none — in the JS sense — is stored) with no
new row; otherwise a new pending log carrying the evidence is created; and
the at-most-one-pending-per-pair invariant is preserved. -/
theorem submitTask_spec (db : DB) (taskId playerId : Nat) (evidence : String)
    (now : Int) :
    (findTask db taskId = none →
      submitTask db taskId playerId evidence now
        = .error ("Task not found: " ++ toString taskId)) ∧
    (∀ task, findTask db taskId = some task → task.deadline < now →
      submitTask db taskId playerId evidence now
        = .error "Task deadline has passed") ∧
    (∀ task ex, findTask db taskId = some task → ¬task.deadline < now →
      db.taskLogs.find? (fun l => l.taskId == taskId && l.playerId == playerId &&
          decide (l.status = TaskStatus.pending)) = some ex →
      (jsFalsyStr ex.evidence = false →
        submitTask db taskId playerId evidence now = .ok (ex, db)) ∧
      (jsFalsyStr ex.evidence = true →
        submitTask db taskId playerId evidence now =
          .ok ({ ex with evidence := some evidence },
               updateTaskLogRow db { ex with evidence := some evidence })) ∧
      (∀ r db2, submitTask db taskId playerId evidence now = .ok (r, db2) →
        db2.taskLogs.length = db.taskLogs.length)) ∧
    (∀ task, findTask db taskId = some task → ¬task.deadline < now →
      db.taskLogs.find? (fun l => l.taskId == taskId && l.playerId == playerId &&
          decide (l.status = TaskStatus.pending)) = none →
      submitTask db taskId playerId evidence now =
        .ok (⟨db.nextId, taskId, playerId, .pending, some evidence, none, now⟩,
             ⟨db.players, db.stats, db.tasks,
              db.taskLogs ++ [⟨db.nextId, taskId, playerId, .pending, some evidence, none, now⟩],
              db.penalties, db.narratives, db.nextId + 1⟩) ∧
      (db.taskLogs.filter (fun l => l.taskId == taskId && l.playerId == playerId &&
          decide (l.status = TaskStatus.pending))).length = 0) ∧
    ((db.taskLogs.map (fun l => l.id)).Nodup →
      ∀ r db2, submitTask db taskId playerId evidence now = .ok (r, db2) →
      (db.taskLogs.filter (fun l => l.taskId == taskId && l.playerId == playerId &&
          decide (l.status = TaskStatus.pending))).length ≤ 1 →
      (db2.taskLogs.filter (fun l => l.taskId == taskId && l.playerId == playerId &&
          decide (l.status = TaskStatus.pending))).length ≤ 1) := by
  refine ⟨?_, ?_, ?_, ?_, ?_⟩
  · intro h
    unfold submitTask
    rw [h]
  · intro task hfind hlt
    unfold submitTask
    rw [hfind]
    dsimp only
    rw [if_pos hlt]
  · intro task ex hfind hnl hex
    refine ⟨?_, ?_, ?_⟩
    · intro hfalse
      unfold submitTask
      rw [hfind]
      dsimp only
      rw [if_neg hnl, hex]
      dsimp only
      rw [hfalse]
      simp
    · intro htrue
      unfold submitTask
      rw [hfind]
      dsimp only
      rw [if_neg hnl, hex]
      dsimp only
      rw [htrue]
      simp
    · intro r db2 heq
      unfold submitTask at heq
      rw [hfind] at heq
      dsimp only at heq
      rw [if_neg hnl, hex] at heq
      dsimp only at heq
      rcases hj : jsFalsyStr ex.evidence with htrue | hfalse
      · rw [hj] at heq
        simp only [Bool.false_eq_true, if_false, Except.ok.injEq, Prod.mk.injEq] at heq
        obtain ⟨-, h2⟩ := heq
        subst h2
        rfl
      · rw [hj] at heq
        simp only [if_true, Except.ok.injEq, Prod.mk.injEq] at heq
        obtain ⟨-, h2⟩ := heq
        subst h2
        exact (List.length_map _ _).symm ▸ rfl
  · intro task hfind hnl hnone
    constructor
    · unfold submitTask
      rw [hfind]
      dsimp only
      rw [if_neg hnl, hnone]
    · have hall := List.find?_eq_none.mp hnone
      have : db.taskLogs.filter (fun l => l.taskId == taskId && l.playerId == playerId &&
          decide (l.status = TaskStatus.pending)) = [] := by
        apply List.filter_eq_nil_iff.mpr
        intro a ha
        exact fun hcontra => hall a ha hcontra
      rw [this]
      rfl
  · intro hnodup r db2 heq hle
    unfold submitTask at heq
    rcases hfind : findTask db taskId with - | task
    · rw [hfind] at heq; simp at heq
    · rw [hfind] at heq
      dsimp only at heq
      by_cases hdl : task.deadline < now
      · rw [if_pos hdl] at heq; simp at heq
      · rw [if_neg hdl] at heq
        rcases hex : db.taskLogs.find? (fun l => l.taskId == taskId &&
            l.playerId == playerId && decide (l.status = TaskStatus.pending))
            with - | ex
        · rw [hex] at heq
          dsimp only at heq
          simp only [Except.ok.injEq, Prod.mk.injEq] at heq
          obtain ⟨-, h2⟩ := heq
          subst h2
          have hall := List.find?_eq_none.mp hex
          have hnil : db.taskLogs.filter (fun l => l.taskId == taskId &&
              l.playerId == playerId && decide (l.status = TaskStatus.pending)) = [] := by
            apply List.filter_eq_nil_iff.mpr
            intro a ha
            exact fun hcontra => hall a ha hcontra
          show (List.filter _ (db.taskLogs ++ [_])).length ≤ 1
          rw [List.filter_append, hnil]
          simp
        · rw [hex] at heq
          dsimp only at heq
          rcases hj : jsFalsyStr ex.evidence with htrue | hfalse
          · rw [hj] at heq
            simp only [Bool.false_eq_true, if_false, Except.ok.injEq, Prod.mk.injEq] at heq
            obtain ⟨-, h2⟩ := heq
            subst h2
            exact hle
          · rw [hj] at heq
            simp only [if_true, Except.ok.injEq, Prod.mk.injEq] at heq
            obtain ⟨-, h2⟩ := heq
            subst h2
            have hmem : ex ∈ db.taskLogs := List.mem_of_find?_eq_some hex
            show ((db.taskLogs.map _).filter _).length ≤ 1
            rw [filter_length_replace TaskLogRow.id
              (fun l => l.taskId == taskId && l.playerId == playerId &&
                decide (l.status = TaskStatus.pending))
              db.taskLogs ex { ex with evidence := some evidence } hmem hnodup rfl rfl]
            exact hle

/-- Witness for C9: the four behaviours at concrete databases — absent task,
passed deadline, idempotent return of an evidenced pending log, and creation
of a new pending log. -/
theorem submitTask_spec_witness :
    submitTask ⟨[], [], [], [], [], [], 1⟩ 9 1 "ev" 0
      = .error ("Task not found: " ++ toString 9) ∧
    submitTask ⟨[], [], [⟨1, .daily, .easy, "d", .physical, 20, 100⟩], [], [], [], 2⟩
      1 1 "ev" 200 = .error "Task deadline has passed" ∧
    submitTask ⟨[], [], [⟨1, .daily, .easy, "d", .physical, 20, 100⟩],
        [⟨5, 1, 1, .pending, some "old", none, 0⟩], [], [], 6⟩ 1 1 "ev" 50
      = .ok (⟨5, 1, 1, .pending, some "old", none, 0⟩,
          ⟨[], [], [⟨1, .daily, .easy, "d", .physical, 20, 100⟩],
            [⟨5, 1, 1, .pending, some "old", none, 0⟩], [], [], 6⟩) ∧
    submitTask ⟨[], [], [⟨1, .daily, .easy, "d", .physical, 20, 100⟩], [], [], [], 6⟩
      1 1 "ev" 50
      = .ok (⟨6, 1, 1, .pending, some "ev", none, 50⟩,
          ⟨[], [], [⟨1, .daily, .easy, "d", .physical, 20, 100⟩],
            [⟨6, 1, 1, .pending, some "ev", none, 50⟩], [], [], 7⟩) := by
  refine ⟨?_, ?_, ?_, ?_⟩
  · exact (submitTask_spec ⟨[], [], [], [], [], [], 1⟩ 9 1 "ev" 0).1 (by rfl)
  · exact (submitTask_spec _ 1 1 "ev" 200).2.1
      ⟨1, .daily, .easy, "d", .physical, 20, 100⟩ (by rfl) (by norm_num)
  · exact ((submitTask_spec _ 1 1 "ev" 50).2.2.1
      ⟨1, .daily, .easy, "d", .physical, 20, 100⟩
      ⟨5, 1, 1, .pending, some "old", none, 0⟩
      (by rfl) (by norm_num) (by rfl)).1 (by rfl)
  · exact ((submitTask_spec _ 1 1 "ev" 50).2.2.2.1
      ⟨1, .daily, .easy, "d", .physical, 20, 100⟩ (by rfl) (by norm_num) (by rfl)).1

/-! ## C4: the daily pipeline is not transactional -/

/-- Noon (UTC) of an arbitrary day, the moment the daily job runs in the
scenario below. -/
def nowC4 : Int := 20000 * 86400000 + 43200000

/-- Environment for the scenario: every external collaborator is down, both
`Math.random` draws are 0. -/
def envC4 : Env :=
  { judgeOracle := .transportError "oracle unreachable"
    quest := .error "quest generator unreachable"
    narrator := .error "narrator unreachable"
    randDesc := 0
    randBase := 0 }

/-- Scenario database: player 1 has a completed daily-task log from today (so
decay is skipped), a pending log whose task deadline has passed (so step 3
marks it missed and step 4 records a sanction), and no stats row (so step 5's
`getWeakestStat` throws after those writes).  Player 2 is healthy. -/
def dbC4 : DB :=
  { players := [⟨1, .E, 1, 0⟩, ⟨2, .E, 1, 0⟩]
    stats := [⟨10, 2, 30, 50, 50, 50, 50, 50⟩]
    tasks := [⟨11, .daily, .easy, "overdue daily", .physical, 20, 20000 * 86400000 - 1⟩,
              ⟨12, .daily, .easy, "completed daily", .physical, 20, nowC4⟩]
    taskLogs := [⟨20, 12, 1, .completed, none, none, nowC4 - 1000⟩,
                 ⟨21, 11, 1, .pending, none, none, nowC4 - 86400000⟩]
    penalties := []
    narratives := []
    nextId := 100 }

/-- The scenario database after step 3 of player 1's pipeline: task log 21 is
marked missed. -/
def dbC4M : DB :=
  { players := [⟨1, .E, 1, 0⟩, ⟨2, .E, 1, 0⟩]
    stats := [⟨10, 2, 30, 50, 50, 50, 50, 50⟩]
    tasks := [⟨11, .daily, .easy, "overdue daily", .physical, 20, 20000 * 86400000 - 1⟩,
              ⟨12, .daily, .easy, "completed daily", .physical, 20, nowC4⟩]
    taskLogs := [⟨20, 12, 1, .completed, none, none, nowC4 - 1000⟩,
                 ⟨21, 11, 1, .missed, none, none, nowC4 - 86400000⟩]
    penalties := []
    narratives := []
    nextId := 100 }

/-- The scenario database after step 4: a warning sanction has been recorded
for player 1 (PSI 1). -/
def dbC4P : DB :=
  { dbC4M with
    penalties := [⟨100, 1, .missed_task, ((1 : Int) : ℚ), none, nowC4⟩]
    nextId := 101 }

/-- The scenario database after player 2's healthy pipeline: a new daily task
and its pending log exist for player 2. -/
def dbC4Q : DB :=
  { dbC4P with
    tasks := dbC4P.tasks ++
      [⟨101, .daily, .easy, "Complete a 30-minute workout or exercise routine",
        .physical, 20, endOfDay nowC4⟩]
    taskLogs := dbC4P.taskLogs ++ [⟨102, 101, 2, .pending, none, none, nowC4⟩]
    nextId := 103 }

/-- Claim C4 fails on the code: the source opens a transaction but passes it
to none of the five steps, so `rollback()` restores nothing.  In the scenario,
player 1's pipeline fails at step 5 (`Stats not found`), yet the step-3 write
(task log 21 marked missed) and the step-4 write (a sanction row) persist —
they are not rolled back as the claim states.  The isolation half of the claim
does hold: the batch job counts the failure and player 2 is processed
normally, ending with a fresh pending daily task. -/
theorem dailyFlow_rollback_restores_nothing :
    (processPlayerDailyFlow envC4 nowC4 dbC4 1).1
        = some "Stats not found for player 1" ∧
    ((processPlayerDailyFlow envC4 nowC4 dbC4 1).2.taskLogs.find?
        (fun l => l.id == 21)).map (fun l => l.status) = some .missed ∧
    (processPlayerDailyFlow envC4 nowC4 dbC4 1).2.penalties.length = 1 ∧
    (dbC4.taskLogs.find? (fun l => l.id == 21)).map (fun l => l.status)
        = some .pending ∧
    dbC4.penalties.length = 0 ∧
    (runDailyDecayJob envC4 nowC4 dbC4).1 = (1, 1) ∧
    (runDailyDecayJob envC4 nowC4 dbC4).2.taskLogs.any
      (fun l => l.playerId == 2 && decide (l.status = TaskStatus.pending)) = true := by
  have hpend : findPendingTasksNearDeadline dbC4 1 nowC4 = [] := by rfl
  have hdecay : applyDailyDecay dbC4 1 nowC4 = .ok (none, dbC4) := by rfl
  have hmark : checkAndMarkMissedTasks dbC4 1 nowC4 =
      ([⟨21, 11, 1, .missed, none, none, nowC4 - 86400000⟩], dbC4M) := by rfl
  have hrecent : recentMissedTaskLogs dbC4M 1 nowC4 =
      [⟨21, 11, 1, .missed, none, none, nowC4 - 86400000⟩] := by rfl
  have hpsi : calculatePSI dbC4M 1 nowC4 = 1 := by
    unfold calculatePSI
    rw [hrecent]
    dsimp only [List.map_cons, List.map_nil, List.sum_cons, List.sum_nil,
      List.length_cons, List.length_nil]
    rw [show findTask dbC4M 11 =
        some ⟨11, .daily, .easy, "overdue daily", .physical, 20,
          20000 * 86400000 - 1⟩ from by rfl]
    dsimp only [DIFFICULTY_MULTIPLIERS]
    norm_num [min_def]
  have hmiss : applyMissPenalty dbC4M 1 nowC4 = .ok ((1, "warning"), dbC4P) := by
    unfold applyMissPenalty
    simp only [hpsi]
    rw [if_neg (by norm_num : ¬(1 : Int) = 0)]
    unfold applyPenalty
    rw [if_pos (by norm_num : ((1 : Int) : ℚ) < 5)]
    rfl
  have hgen1 : generateDailyTask envC4 nowC4 dbC4P 1
      = .error "Stats not found for player 1" := by rfl
  have hflow : processPlayerDailyFlow envC4 nowC4 dbC4 1
      = (some "Stats not found for player 1", dbC4P) := by
    unfold processPlayerDailyFlow
    rw [hpend]
    dsimp only [List.foldl]
    rw [hdecay]
    dsimp only
    rw [hmark]
    dsimp only
    rw [if_pos (by norm_num :
      ([⟨21, 11, 1, TaskStatus.missed, none, none, nowC4 - 86400000⟩]
        : List TaskLogRow).length > 0)]
    rw [show findPlayer dbC4M 1 = some ⟨1, Rank.E, 1, 0⟩ from by rfl]
    dsimp only
    rw [hmiss]
    dsimp only
    rw [hgen1]
  have hxpr : ∀ b : Int, calculateXpReward .easy b = b := by
    intro b
    unfold calculateXpReward
    dsimp only
    rw [mul_one]
    exact round_intCast b
  have hfs2 : findStats dbC4P 2 = some ⟨10, 2, 30, 50, 50, 50, 50, 50⟩ := by rfl
  have hv30 : clampStat (((30 : Int) : ℚ) + -(1/10)) = 30 := by
    unfold clampStat
    rw [show round (((30 : Int) : ℚ) + -(1/10)) = 30 from by rw [round_eq]; norm_num]
    norm_num [min_def, max_def]
  have hv50a : clampStat (((50 : Int) : ℚ) + -(2/10)) = 50 := by
    unfold clampStat
    rw [show round (((50 : Int) : ℚ) + -(2/10)) = 50 from by rw [round_eq]; norm_num]
    norm_num [min_def, max_def]
  have hv50b : clampStat (((50 : Int) : ℚ) + -(1/10)) = 50 := by
    unfold clampStat
    rw [show round (((50 : Int) : ℚ) + -(1/10)) = 50 from by rw [round_eq]; norm_num]
    norm_num [min_def, max_def]
  have hv50c : clampStat (((50 : Int) : ℚ) + -(5/100)) = 50 := by
    unfold clampStat
    rw [show round (((50 : Int) : ℚ) + -(5/100)) = 50 from by rw [round_eq]; norm_num]
    norm_num [min_def, max_def]
  have hchange2 : applyStatChange dbC4P 2
      { discipline := some (DAILY_DECAY_RATES .discipline)
        physical := some (DAILY_DECAY_RATES .physical)
        intelligence := some (DAILY_DECAY_RATES .intelligence)
        confidence := some (DAILY_DECAY_RATES .confidence)
        charisma := some (DAILY_DECAY_RATES .charisma)
        creativity := some (DAILY_DECAY_RATES .creativity) }
      = .ok (⟨10, 2, 30, 50, 50, 50, 50, 50⟩, dbC4P) := by
    unfold applyStatChange
    rw [hfs2]
    dsimp only [Option.getD_some, DAILY_DECAY_RATES]
    rw [hv30, hv50a, hv50b, hv50c]
    rfl
  have hdecay2 : applyDailyDecay dbC4P 2 nowC4
      = .ok (some ⟨10, 2, 30, 50, 50, 50, 50, 50⟩, dbC4P) := by
    unfold applyDailyDecay
    rw [show hasCompletedDailyQuestToday dbC4P 2 nowC4 = false from by rfl]
    simp only [Bool.false_eq_true, if_false]
    rw [hfs2]
    dsimp only
    rw [hchange2]
  have hgen2 : generateDailyTask envC4 nowC4 dbC4P 2
      = .ok (⟨101, .daily, .easy,
          "Complete a 30-minute workout or exercise routine", .physical, 20,
          endOfDay nowC4⟩, dbC4Q) := by
    unfold generateDailyTask
    rw [show getWeakestStat dbC4P 2 = .ok StatType.physical from by rfl]
    dsimp only
    rw [show findPlayer dbC4P 2 = some ⟨2, Rank.E, 1, 0⟩ from by rfl]
    dsimp only
    rw [hfs2]
    dsimp only
    rw [show getRecentTaskHistory dbC4P 2 nowC4 21 = [] from by rfl]
    rw [show calculateDifficultyScaling (countRecentFailures []) Rank.E
        = Difficulty.easy from by rfl]
    rw [show envC4.quest = Except.error "quest generator unreachable" from rfl]
    dsimp only
    rw [hxpr]
    rfl
  have hflow2 : processPlayerDailyFlow envC4 nowC4 dbC4P 2 = (none, dbC4Q) := by
    unfold processPlayerDailyFlow
    rw [show findPendingTasksNearDeadline dbC4P 2 nowC4 = [] from by rfl]
    dsimp only [List.foldl]
    rw [hdecay2]
    dsimp only
    rw [show checkAndMarkMissedTasks dbC4P 2 nowC4 = ([], dbC4P) from by rfl]
    dsimp only
    rw [if_neg (by norm_num : ¬(([] : List TaskLogRow).length > 0))]
    dsimp only
    rw [hgen2]
  have hjob : runDailyDecayJob envC4 nowC4 dbC4 = ((1, 1), dbC4Q) := by
    unfold runDailyDecayJob
    rw [show dbC4.players.map (fun p => p.id) = [1, 2] from by rfl]
    dsimp only [List.foldl]
    rw [hflow]
    dsimp only
    rw [hflow2]
  refine ⟨by rw [hflow], by rw [hflow]; rfl, by rw [hflow]; rfl, by rfl, by rfl,
    by rw [hjob], by rw [hjob]; rfl⟩

end SoloLeveling
